import Mathlib

/-!
Verification of the traceway tracing daemon core against its specification.

The Rust sources are shallowly embedded:
* `serde_json::Value` becomes the inductive `Json` (object maps become
  association lists; only lookup semantics matter to the verified code).
* `chrono::DateTime<Utc>` becomes `Int`, measured in milliseconds, so that
  `num_milliseconds` of a difference is plain subtraction.
* `Uuid` identifiers become `Nat` (only equality and string rendering are used).
* `f64` accumulators (`cost`, `latency_sum_ms`) become `Rat`; the verified
  claims concern which spans contribute to the sums, not rounding.
* `u64` counters become `Nat` (the claims do not concern wrap-around).
* Calls into the runtime clock pass the current time explicitly (`now : Int`).
* Fallible backend calls are driven by an explicit `backendOk : Bool` flag and
  every store operation additionally returns the ordered list of its effects
  (memory mutation vs. backend call), mirroring the statement order of the
  Rust source.
-/

set_option maxHeartbeats 1000000
set_option linter.unnecessarySeqFocus false
set_option linter.unnecessarySimpa false

namespace Traceway

/-- Shallow model of serde_json::Value. Objects are association lists. -/
inductive Json where
  | null : Json
  | bool (b : Bool) : Json
  | num (n : Int) : Json
  | str (s : String) : Json
  | arr (items : List Json) : Json
  | obj (fields : List (String × Json)) : Json

namespace Json

/-- Value::get(key) on an object; None on any other variant. -/
def get : Json → String → Option Json
  | .obj fields, key => fields.lookup key
  | _, _ => none

/-- Value::as_u64: a non-negative integer number, else None. -/
def asU64 : Json → Option Nat
  | .num n => if 0 ≤ n then some n.toNat else none
  | _ => none

/-- Insert into an object map, replacing an existing binding in place and
appending otherwise (serde_json::Map::insert lookup semantics). -/
def assocPut : List (String × Json) → String → Json → List (String × Json)
  | [], k, v => [(k, v)]
  | (k', v') :: rest, k, v =>
    if k' == k then (k', v) :: rest else (k', v') :: assocPut rest k v

/-- Map::insert guarded by as_object_mut: non-objects are left unchanged. -/
def objInsert : Json → String → Json → Json
  | .obj fields, k, v => .obj (assocPut fields k v)
  | j, _, _ => j

end Json

/-- SpanStatus from trace/src/lib.rs. -/
inductive SpanStatus where
  | running
  | completed
  | failed (error : String)
deriving DecidableEq

namespace SpanStatus

/-- SpanStatus::as_str. -/
def as_str : SpanStatus → String
  | .running => "running"
  | .completed => "completed"
  | .failed _ => "failed"

/-- SpanStatus::is_terminal. -/
def is_terminal : SpanStatus → Bool
  | .completed => true
  | .failed _ => true
  | .running => false

end SpanStatus

/-- SpanKind from trace/src/lib.rs: the four tagged span variants. -/
inductive SpanKind where
  | fsRead (path : String) (file_version : Option String) (bytes_read : Nat)
  | fsWrite (path : String) (file_version : String) (bytes_written : Nat)
  | llmCall (model : String) (provider : Option String)
      (input_tokens : Option Nat) (output_tokens : Option Nat)
      (cost : Option Rat) (input_preview : Option String)
      (output_preview : Option String)
  | custom (kind : String) (attributes : List (String × Json))

namespace SpanKind

/-- SpanKind::kind_name. -/
def kind_name : SpanKind → String
  | .fsRead .. => "fs_read"
  | .fsWrite .. => "fs_write"
  | .llmCall .. => "llm_call"
  | .custom kind _ => kind

/-- SpanKind::model. -/
def model : SpanKind → Option String
  | .llmCall m .. => some m
  | _ => none

/-- SpanKind::path. -/
def path : SpanKind → Option String
  | .fsRead p _ _ => some p
  | .fsWrite p _ _ => some p
  | _ => none

/-- SpanKind::provider. -/
def provider : SpanKind → Option String
  | .llmCall _ p .. => p
  | _ => none

/-- SpanKind::input_tokens. -/
def input_tokens : SpanKind → Option Nat
  | .llmCall _ _ it .. => it
  | _ => none

/-- SpanKind::output_tokens. -/
def output_tokens : SpanKind → Option Nat
  | .llmCall _ _ _ ot .. => ot
  | _ => none

/-- SpanKind::total_tokens. -/
def total_tokens (k : SpanKind) : Option Nat :=
  match k.input_tokens, k.output_tokens with
  | some i, some o => some (i + o)
  | some i, none => some i
  | none, some o => some o
  | none, none => none

/-- SpanKind::cost. -/
def cost : SpanKind → Option Rat
  | .llmCall _ _ _ _ c _ _ => c
  | _ => none

end SpanKind

/-- Span from trace/src/lib.rs. Timestamps are Int milliseconds. -/
structure Span where
  id : Nat
  trace_id : Nat
  org_id : Option Nat
  parent_id : Option Nat
  name : String
  kind : SpanKind
  status : SpanStatus
  started_at : Int
  ended_at : Option Int
  input : Option Json
  output : Option Json

namespace Span

/-- Span::duration_ms: ended_at - started_at when terminal. -/
def duration_ms (s : Span) : Option Int :=
  s.ended_at.map (fun e => e - s.started_at)

/-- Span::complete: Running -> Completed; no-op when already terminal.
The clock (Utc::now) is the explicit `now` argument. -/
def complete (s : Span) (output : Option Json) (now : Int) : Span :=
  if s.status.is_terminal then s
  else { s with status := .completed, ended_at := some now, output := output }

/-- Span::fail: Running -> Failed; no-op when already terminal. -/
def fail (s : Span) (error : String) (now : Int) : Span :=
  if s.status.is_terminal then s
  else { s with status := .failed error, ended_at := some now }

end Span

/-- Trace metadata from trace/src/lib.rs. -/
structure Trace where
  id : Nat
  org_id : Option Nat
  name : Option String
  tags : List String
  started_at : Int
  ended_at : Option Int
  machine_id : Option String
deriving DecidableEq

/-- FileVersion from trace/src/lib.rs. -/
structure FileVersion where
  hash : String
  path : String
  size : Nat
  created_at : Int
  created_by_span : Option Nat
deriving DecidableEq

/-- Chat message inside an LlmConversation datapoint. -/
structure Message where
  role : String
  content : String
deriving DecidableEq

/-- DatapointKind from trace/src/lib.rs. -/
inductive DatapointKind where
  | llmConversation (messages : List Message) (expected : Option Message)
      (metadata : List (String × Json))
  | generic (input : Json) (expected_output : Option Json)
      (actual_output : Option Json) (score : Option Rat)
      (metadata : List (String × Json))

/-- DatapointSource from trace/src/lib.rs. -/
inductive DatapointSource where
  | manual
  | spanExport
  | fileUpload
deriving DecidableEq

/-- Dataset from trace/src/lib.rs. -/
structure Dataset where
  id : Nat
  org_id : Option Nat
  name : String
  description : Option String
  created_at : Int
  updated_at : Int
deriving DecidableEq

/-- Datapoint from trace/src/lib.rs. -/
structure Datapoint where
  id : Nat
  dataset_id : Nat
  kind : DatapointKind
  source : DatapointSource
  source_span_id : Option Nat
  created_at : Int

/-- QueueItemStatus from trace/src/lib.rs. -/
inductive QueueItemStatus where
  | pending
  | claimed
  | completed
deriving DecidableEq

/-- QueueItem from trace/src/lib.rs. -/
structure QueueItem where
  id : Nat
  dataset_id : Nat
  datapoint_id : Nat
  status : QueueItemStatus
  claimed_by : Option String
  claimed_at : Option Int
  original_data : Option Json
  edited_data : Option Json
  created_at : Int

namespace QueueItem

/-- QueueItem::claim: set status, claimed_by and claimed_at (Utc::now). -/
def claim (q : QueueItem) (claimed_by : String) (now : Int) : QueueItem :=
  { q with status := .claimed, claimed_by := some claimed_by,
           claimed_at := some now }

/-- QueueItem::complete: set status and edited_data. -/
def complete (q : QueueItem) (edited_data : Option Json) : QueueItem :=
  { q with status := .completed, edited_data := edited_data }

end QueueItem


-- === String helpers (Rust str::starts_with / str::contains on ASCII data) ===

/-- Bool prefix test on character lists. -/
def isPre : List Char → List Char → Bool
  | [], _ => true
  | _ :: _, [] => false
  | c :: cs, d :: ds => c == d && isPre cs ds

/-- Bool substring test: some suffix of the haystack starts with the needle. -/
def subAux (nee : List Char) : List Char → Bool
  | [] => nee.isEmpty
  | c :: rest => isPre nee (c :: rest) || subAux nee rest

/-- Rust str::contains (substring containment). -/
def strContains (hay nee : String) : Bool :=
  subAux nee.data hay.data

/-- Rust str::starts_with. -/
def strStarts (s pre : String) : Bool :=
  isPre pre.data s.data

/-- Rust byte-slice s[..n] on ASCII strings. -/
def strTake (s : String) (n : Nat) : String :=
  ⟨s.data.take n⟩

-- === In-memory span store (storage/src/lib.rs, SpanStore) ===

/-- SpanStore: the spans HashMap is modelled by its list of values (unique
ids), the trace index by an association list. -/
structure SpanStore where
  spans : List Span
  traces : List (Nat × List Nat)

/-- HashMap entry(trace_id).or_default().push(id). -/
def pushTraceIndex : List (Nat × List Nat) → Nat → Nat → List (Nat × List Nat)
  | [], tid, id => [(tid, [id])]
  | (t, ids) :: rest, tid, id =>
    if t == tid then (t, ids ++ [id]) :: rest
    else (t, ids) :: pushTraceIndex rest tid id

/-- Trace-index half of SpanStore::delete_span: retain ids other than the
deleted one and drop the entry when it becomes empty. -/
def removeFromTraceIndex : List (Nat × List Nat) → Nat → Nat → List (Nat × List Nat)
  | [], _, _ => []
  | (t, ids) :: rest, tid, id =>
    if t == tid then
      let ids' := ids.filter (fun j => j != id)
      if ids'.isEmpty then rest else (t, ids') :: rest
    else (t, ids) :: removeFromTraceIndex rest tid id

namespace SpanStore

/-- SpanStore::new. -/
def new : SpanStore := ⟨[], []⟩

/-- SpanStore::insert: HashMap insert keyed by span id plus trace-index push. -/
def insert (st : SpanStore) (s : Span) : Nat × SpanStore :=
  (s.id, { spans := s :: st.spans.filter (fun t => t.id != s.id),
           traces := pushTraceIndex st.traces s.trace_id s.id })

/-- SpanStore::get. -/
def get (st : SpanStore) (id : Nat) : Option Span :=
  st.spans.find? (fun s => s.id == id)

/-- SpanStore::remove: HashMap::remove on the spans map only. -/
def removeSpan (st : SpanStore) (id : Nat) : Option Span × SpanStore :=
  match st.spans.find? (fun s => s.id == id) with
  | some s => (some s, { st with spans := st.spans.filter (fun t => t.id != id) })
  | none => (none, st)

/-- SpanStore::replace: HashMap insert keyed by span id. -/
def replace (st : SpanStore) (s : Span) : SpanStore :=
  { st with spans := s :: st.spans.filter (fun t => t.id != s.id) }

/-- SpanStore::spans_for_trace. -/
def spans_for_trace (st : SpanStore) (tid : Nat) : List Nat :=
  (st.traces.lookup tid).getD []

/-- SpanStore::span_count. -/
def span_count (st : SpanStore) : Nat := st.spans.length

/-- SpanStore::delete_span: remove from the spans map and from the trace
index, dropping an emptied index entry. -/
def delete_span (st : SpanStore) (id : Nat) : Bool × SpanStore :=
  match st.spans.find? (fun s => s.id == id) with
  | some s =>
    (true, { spans := st.spans.filter (fun t => t.id != id),
             traces := removeFromTraceIndex st.traces s.trace_id id })
  | none => (false, st)

/-- SpanStore::delete_trace: drop the index entry and every span it lists. -/
def delete_trace (st : SpanStore) (tid : Nat) : Nat × SpanStore :=
  match st.traces.lookup tid with
  | some ids =>
    (ids.length, { spans := st.spans.filter (fun s => !(ids.contains s.id)),
                   traces := st.traces.filter (fun p => p.1 != tid) })
  | none => (0, st)

/-- SpanStore::clear. -/
def clear (_st : SpanStore) : SpanStore := ⟨[], []⟩

end SpanStore

-- === Filter language (storage/src/filter.rs) ===

/-- SpanFilter: every field optional; an empty filter matches everything. -/
structure SpanFilter where
  kind : Option String := none
  model : Option String := none
  provider : Option String := none
  status : Option String := none
  since : Option Int := none
  «until» : Option Int := none
  name_contains : Option String := none
  path : Option String := none
  trace_id : Option Nat := none
  limit : Option Nat := none

/-- The kind check of the filter closure in SpanStore::filter_spans. -/
def checkKind (f : SpanFilter) (s : Span) : Bool :=
  match f.kind with
  | some k => s.kind.kind_name == k
  | none => true

/-- The model check: Some model equal to the filter value, else reject. -/
def checkModel (f : SpanFilter) (s : Span) : Bool :=
  match f.model with
  | some m =>
    match s.kind.model with
    | some m' => m' == m
    | none => false
  | none => true

/-- The provider check. -/
def checkProvider (f : SpanFilter) (s : Span) : Bool :=
  match f.provider with
  | some p =>
    match s.kind.provider with
    | some p' => p' == p
    | none => false
  | none => true

/-- The status check (string form). -/
def checkStatus (f : SpanFilter) (s : Span) : Bool :=
  match f.status with
  | some st => s.status.as_str == st
  | none => true

/-- The since check: reject when started_at < since. -/
def checkSince (f : SpanFilter) (s : Span) : Bool :=
  match f.since with
  | some t => if s.started_at < t then false else true
  | none => true

/-- The until check: reject when started_at > until. -/
def checkUntil (f : SpanFilter) (s : Span) : Bool :=
  match f.«until» with
  | some t => if s.started_at > t then false else true
  | none => true

/-- The name_contains check (substring). -/
def checkNameContains (f : SpanFilter) (s : Span) : Bool :=
  match f.name_contains with
  | some n => strContains s.name n
  | none => true

/-- The path check against kind.path(). -/
def checkPath (f : SpanFilter) (s : Span) : Bool :=
  match f.path with
  | some p =>
    match s.kind.path with
    | some p' => p' == p
    | none => false
  | none => true

/-- The trace_id check. -/
def checkTraceId (f : SpanFilter) (s : Span) : Bool :=
  match f.trace_id with
  | some t => s.trace_id == t
  | none => true

/-- SpanStore::filter_spans: keep the spans passing every populated check, in
the order the checks appear in the source closure. -/
def SpanStore.filter_spans (st : SpanStore) (f : SpanFilter) : List Span :=
  st.spans.filter (fun s =>
    checkKind f s && checkModel f s && checkProvider f s && checkStatus f s &&
    checkSince f s && checkUntil f s && checkNameContains f s &&
    checkPath f s && checkTraceId f s)

-- === Persistent store (storage/src/lib.rs, PersistentStore) ===

/-- One observable effect of a PersistentStore operation: a mutation of the
in-memory indices or a call into the storage backend. Logged in the order
the corresponding statements run in the Rust source. -/
inductive Eff where
  | mem
  | backend
deriving DecidableEq

/-- Holds when every in-memory mutation precedes every backend call. -/
def memThenBackend : List Eff → Bool
  | [] => true
  | .mem :: rest => memThenBackend rest
  | .backend :: rest => rest.all (fun e => e == Eff.backend)

/-- PersistentStore: in-memory dual index plus the entity maps. The backend
handle is replaced by the per-call `backendOk` flag, since backend errors
are logged and swallowed. -/
structure PStore where
  memory : SpanStore
  trace_meta : List Trace
  file_versions : List FileVersion
  datasets : List Dataset
  datapoints : List Datapoint
  queue_items : List QueueItem

/-- HashMap insert for trace metadata, keyed by trace id. -/
def putTrace (l : List Trace) (t : Trace) : List Trace :=
  t :: l.filter (fun u => u.id != t.id)

/-- HashMap insert for datasets, keyed by dataset id. -/
def putDataset (l : List Dataset) (d : Dataset) : List Dataset :=
  d :: l.filter (fun u => u.id != d.id)

/-- HashMap insert for datapoints, keyed by datapoint id. -/
def putDatapoint (l : List Datapoint) (d : Datapoint) : List Datapoint :=
  d :: l.filter (fun u => u.id != d.id)

/-- HashMap insert for queue items, keyed by item id. -/
def putQueueItem (l : List QueueItem) (q : QueueItem) : List QueueItem :=
  q :: l.filter (fun u => u.id != q.id)

namespace PStore

/-- PersistentStore::insert: memory insert, then backend save_span (errors
logged, never propagated). -/
def insertSpan (st : PStore) (s : Span) (_backendOk : Bool) :
    Nat × PStore × List Eff :=
  let (id, mem') := st.memory.insert s
  match mem'.get id with
  | some _ => (id, { st with memory := mem' }, [.mem, .backend])
  | none => (id, { st with memory := mem' }, [.mem])

/-- PersistentStore::get. -/
def get (st : PStore) (id : Nat) : Option Span :=
  st.memory.get id

/-- PersistentStore::complete_span: remove, refuse terminal, otherwise build
the completed span, replace in memory, persist, return. -/
def complete_span (st : PStore) (id : Nat) (output : Option Json) (now : Int)
    (_backendOk : Bool) : Option Span × PStore × List Eff :=
  match st.memory.removeSpan id with
  | (none, _) => (none, st, [])
  | (some s, mem') =>
    if s.status.is_terminal then
      (none, { st with memory := mem'.replace s }, [.mem, .mem])
    else
      let completed := s.complete output now
      (some completed, { st with memory := mem'.replace completed },
       [.mem, .mem, .backend])

/-- PersistentStore::fail_span, symmetric to complete_span. -/
def fail_span (st : PStore) (id : Nat) (error : String) (now : Int)
    (_backendOk : Bool) : Option Span × PStore × List Eff :=
  match st.memory.removeSpan id with
  | (none, _) => (none, st, [])
  | (some s, mem') =>
    if s.status.is_terminal then
      (none, { st with memory := mem'.replace s }, [.mem, .mem])
    else
      let failed := s.fail error now
      (some failed, { st with memory := mem'.replace failed },
       [.mem, .mem, .backend])

/-- PersistentStore::delete_span: memory delete, then backend delete. -/
def delete_span (st : PStore) (id : Nat) (_backendOk : Bool) :
    Bool × PStore × List Eff :=
  match st.memory.delete_span id with
  | (true, mem') => (true, { st with memory := mem' }, [.mem, .backend])
  | (false, _) => (false, st, [])

/-- PersistentStore::delete_trace: memory deletes first, then the backend
span deletion (only when spans were removed) and the backend trace delete. -/
def delete_trace (st : PStore) (tid : Nat) (_backendOk : Bool) :
    Nat × PStore × List Eff :=
  let (count, mem') := st.memory.delete_trace tid
  (count,
   { st with memory := mem',
             trace_meta := st.trace_meta.filter (fun t => t.id != tid) },
   [.mem, .mem] ++ (if 0 < count then [.backend] else []) ++ [.backend])

/-- PersistentStore::clear: clear every in-memory index, then backend
clear_spans. -/
def clear (st : PStore) (_backendOk : Bool) : PStore × List Eff :=
  ({ st with memory := SpanStore.new, trace_meta := [], file_versions := [],
             datasets := [], datapoints := [], queue_items := [] },
   [.mem, .mem, .mem, .mem, .mem, .mem, .backend])

/-- PersistentStore::save_trace: the backend save runs BEFORE the in-memory
insert in the source. -/
def save_trace (st : PStore) (t : Trace) (_backendOk : Bool) :
    PStore × List Eff :=
  ({ st with trace_meta := putTrace st.trace_meta t }, [.backend, .mem])

/-- PersistentStore::get_trace. -/
def get_trace (st : PStore) (id : Nat) : Option Trace :=
  st.trace_meta.find? (fun t => t.id == id)

/-- PersistentStore::save_file_version: backend save first, then Vec::push. -/
def save_file_version (st : PStore) (v : FileVersion) (_backendOk : Bool) :
    PStore × List Eff :=
  ({ st with file_versions := st.file_versions ++ [v] }, [.backend, .mem])

/-- PersistentStore::save_dataset: backend save first, then memory insert. -/
def save_dataset (st : PStore) (d : Dataset) (_backendOk : Bool) :
    PStore × List Eff :=
  ({ st with datasets := putDataset st.datasets d }, [.backend, .mem])

/-- PersistentStore::get_dataset. -/
def get_dataset (st : PStore) (id : Nat) : Option Dataset :=
  st.datasets.find? (fun d => d.id == id)

/-- PersistentStore::delete_dataset: memory removals (dataset, its
datapoints, its queue items), then backend delete. -/
def delete_dataset (st : PStore) (id : Nat) (_backendOk : Bool) :
    Bool × PStore × List Eff :=
  if (st.datasets.find? (fun d => d.id == id)).isSome then
    (true,
     { st with datasets := st.datasets.filter (fun d => d.id != id),
               datapoints := st.datapoints.filter (fun dp => dp.dataset_id != id),
               queue_items := st.queue_items.filter (fun qi => qi.dataset_id != id) },
     [.mem, .mem, .mem, .backend])
  else (false, st, [])

/-- PersistentStore::save_datapoint: backend save first, then memory insert. -/
def save_datapoint (st : PStore) (dp : Datapoint) (_backendOk : Bool) :
    PStore × List Eff :=
  ({ st with datapoints := putDatapoint st.datapoints dp }, [.backend, .mem])

/-- PersistentStore::get_datapoint. -/
def get_datapoint (st : PStore) (id : Nat) : Option Datapoint :=
  st.datapoints.find? (fun dp => dp.id == id)

/-- PersistentStore::delete_datapoint: memory removals, then backend. -/
def delete_datapoint (st : PStore) (id : Nat) (_backendOk : Bool) :
    Bool × PStore × List Eff :=
  if (st.datapoints.find? (fun dp => dp.id == id)).isSome then
    (true,
     { st with datapoints := st.datapoints.filter (fun dp => dp.id != id),
               queue_items := st.queue_items.filter (fun qi => qi.datapoint_id != id) },
     [.mem, .mem, .backend])
  else (false, st, [])

/-- PersistentStore::save_queue_item: backend save first, then memory. -/
def save_queue_item (st : PStore) (q : QueueItem) (_backendOk : Bool) :
    PStore × List Eff :=
  ({ st with queue_items := putQueueItem st.queue_items q }, [.backend, .mem])

/-- PersistentStore::get_queue_item. -/
def get_queue_item (st : PStore) (id : Nat) : Option QueueItem :=
  st.queue_items.find? (fun q => q.id == id)

/-- PersistentStore::claim_queue_item: remove, refuse non-pending (insert the
item back), otherwise claim, backend save, re-insert the claimed item. -/
def claim_queue_item (st : PStore) (id : Nat) (claimed_by : String) (now : Int)
    (_backendOk : Bool) : Option QueueItem × PStore × List Eff :=
  match st.queue_items.find? (fun q => q.id == id) with
  | none => (none, st, [])
  | some item =>
    let rest := st.queue_items.filter (fun q => q.id != id)
    if item.status ≠ QueueItemStatus.pending then
      (none, { st with queue_items := putQueueItem rest item }, [.mem, .mem])
    else
      let claimed := item.claim claimed_by now
      (some claimed, { st with queue_items := putQueueItem rest claimed },
       [.mem, .backend, .mem])

/-- PersistentStore::complete_queue_item: remove, refuse non-claimed (insert
back), otherwise complete, backend save, re-insert. -/
def complete_queue_item (st : PStore) (id : Nat) (edited : Option Json)
    (_backendOk : Bool) : Option QueueItem × PStore × List Eff :=
  match st.queue_items.find? (fun q => q.id == id) with
  | none => (none, st, [])
  | some item =>
    let rest := st.queue_items.filter (fun q => q.id != id)
    if item.status ≠ QueueItemStatus.claimed then
      (none, { st with queue_items := putQueueItem rest item }, [.mem, .mem])
    else
      let completed := item.complete edited
      (some completed, { st with queue_items := putQueueItem rest completed },
       [.mem, .backend, .mem])

/-- PersistentStore::filter_spans delegates to the memory index. -/
def filter_spans (st : PStore) (f : SpanFilter) : List Span :=
  st.memory.filter_spans f

end PStore

-- === SQLite content-addressed blob table (storage/src/sqlite.rs) ===

/-- The error sum type (only the cases the blob table can produce). -/
inductive StorageError where
  | notFound
  | database (msg : String)
deriving DecidableEq

/-- The file_contents table: hash primary key to blob. -/
structure FileContentTable where
  rows : List (String × List Nat)
deriving DecidableEq

/-- SqliteBackend::save_file_content: INSERT OR IGNORE keyed on hash. -/
def save_file_content (tbl : FileContentTable) (hash : String)
    (content : List Nat) : Except StorageError Unit × FileContentTable :=
  match tbl.rows.lookup hash with
  | some _ => (.ok (), tbl)
  | none => (.ok (), ⟨tbl.rows ++ [(hash, content)]⟩)

/-- SqliteBackend::load_file_content: SELECT by hash, NotFound when absent. -/
def load_file_content (tbl : FileContentTable) (hash : String) :
    Except StorageError (List Nat) :=
  match tbl.rows.lookup hash with
  | some b => .ok b
  | none => .error .notFound


-- === Analytics engine (storage/src/analytics.rs, trace/src/lib.rs types) ===

/-- AnalyticsMetric from trace/src/lib.rs. -/
inductive AnalyticsMetric where
  | totalCost
  | totalInputTokens
  | totalOutputTokens
  | totalTokens
  | avgLatencyMs
  | spanCount
  | errorCount
deriving DecidableEq

/-- GroupByField from trace/src/lib.rs. -/
inductive GroupByField where
  | model
  | provider
  | kind
  | status
  | trace
  | day
  | hour
deriving DecidableEq

/-- AnalyticsFilter from trace/src/lib.rs (not consulted by
compute_analytics, which receives a pre-filtered span list). -/
structure AnalyticsFilter where
  kind : Option String := none
  model : Option String := none
  provider : Option String := none
  status : Option String := none
  since : Option Int := none
  «until» : Option Int := none
  trace_id : Option Nat := none

/-- AnalyticsQuery from trace/src/lib.rs. -/
structure AnalyticsQuery where
  metrics : List AnalyticsMetric
  group_by : List GroupByField := []
  filter : AnalyticsFilter := {}

/-- MetricValues from trace/src/lib.rs: every metric optional. -/
structure MetricValues where
  total_cost : Option Rat := none
  total_input_tokens : Option Nat := none
  total_output_tokens : Option Nat := none
  total_tokens : Option Nat := none
  avg_latency_ms : Option Rat := none
  span_count : Option Nat := none
  error_count : Option Nat := none
deriving DecidableEq

/-- A group key: the sorted (field name, value) pairs. -/
abbrev GroupKey := List (String × String)

/-- AnalyticsGroup from trace/src/lib.rs. -/
structure AnalyticsGroup where
  key : GroupKey
  metrics : MetricValues
deriving DecidableEq

/-- AnalyticsResponse from trace/src/lib.rs. -/
structure AnalyticsResponse where
  groups : List AnalyticsGroup
  totals : MetricValues
deriving DecidableEq

/-- The per-group accumulator Acc of compute_analytics. -/
structure Acc where
  cost : Rat
  input_tokens : Nat
  output_tokens : Nat
  total_tokens : Nat
  latency_sum_ms : Rat
  latency_count : Nat
  span_count : Nat
  error_count : Nat
deriving DecidableEq

namespace Acc

/-- Acc::new. -/
def new : Acc :=
  { cost := 0, input_tokens := 0, output_tokens := 0, total_tokens := 0,
    latency_sum_ms := 0, latency_count := 0, span_count := 0, error_count := 0 }

/-- Acc::accumulate: span_count always; error_count for failed; latency for
any span whose duration_ms is present; token/cost sums when present. -/
def accumulate (a : Acc) (s : Span) : Acc :=
  let a := { a with span_count := a.span_count + 1 }
  let a := match s.status with
           | .failed _ => { a with error_count := a.error_count + 1 }
           | _ => a
  let a := match s.duration_ms with
           | some ms => { a with latency_sum_ms := a.latency_sum_ms + (ms : Rat),
                                 latency_count := a.latency_count + 1 }
           | none => a
  let a := match s.kind.cost with
           | some c => { a with cost := a.cost + c }
           | none => a
  let a := match s.kind.input_tokens with
           | some t => { a with input_tokens := a.input_tokens + t }
           | none => a
  let a := match s.kind.output_tokens with
           | some t => { a with output_tokens := a.output_tokens + t }
           | none => a
  match s.kind.total_tokens with
  | some t => { a with total_tokens := a.total_tokens + t }
  | none => a

/-- The body of the to_metrics loop: fill in one requested metric. -/
def metricStep (a : Acc) (mv : MetricValues) (m : AnalyticsMetric) : MetricValues :=
  match m with
  | .totalCost => { mv with total_cost := some a.cost }
  | .totalInputTokens => { mv with total_input_tokens := some a.input_tokens }
  | .totalOutputTokens => { mv with total_output_tokens := some a.output_tokens }
  | .totalTokens => { mv with total_tokens := some a.total_tokens }
  | .avgLatencyMs =>
    { mv with avg_latency_ms :=
        if 0 < a.latency_count then
          some (a.latency_sum_ms / (a.latency_count : Rat))
        else some 0 }
  | .spanCount => { mv with span_count := some a.span_count }
  | .errorCount => { mv with error_count := some a.error_count }

/-- Acc::to_metrics: fill exactly the requested metrics. -/
def to_metrics (a : Acc) (requested : List AnalyticsMetric) : MetricValues :=
  requested.foldl a.metricStep {}

end Acc

/-- format!("{:?}", field).to_lowercase() used as the key-map key. -/
def GroupByField.fieldName : GroupByField → String
  | .model => "model"
  | .provider => "provider"
  | .kind => "kind"
  | .status => "status"
  | .trace => "trace"
  | .day => "day"
  | .hour => "hour"

/-- The value stored for one group-by field. chrono date formatting is
abstracted by the fmtDay/fmtHour parameters; Uuid::to_string by toString. -/
def groupFieldValue (fmtDay fmtHour : Int → String) (s : Span) :
    GroupByField → String
  | .model => (s.kind.model).getD "unknown"
  | .provider => (s.kind.provider).getD "unknown"
  | .kind => s.kind.kind_name
  | .status => s.status.as_str
  | .trace => toString s.trace_id
  | .day => fmtDay s.started_at
  | .hour => fmtHour s.started_at

/-- HashMap<String,String>::insert with overwrite, for the group key map. -/
def putKey : List (String × String) → String → String → List (String × String)
  | [], k, v => [(k, v)]
  | (k', v') :: rest, k, v =>
    if k' == k then (k', v) :: rest else (k', v') :: putKey rest k v

/-- group_key of compute_analytics followed by the sort on field names. -/
def sortedKeyOf (fmtDay fmtHour : Int → String) (s : Span)
    (fields : List GroupByField) : GroupKey :=
  let keyMap := fields.foldl
    (fun m fld => putKey m fld.fieldName (groupFieldValue fmtDay fmtHour s fld)) []
  keyMap.mergeSort (fun a b => decide (a.1 ≤ b.1))

/-- groups.entry(sorted_key).or_insert_with(Acc::new).accumulate(span). -/
def updateGroups (gs : List (GroupKey × Acc)) (k : GroupKey) (s : Span) :
    List (GroupKey × Acc) :=
  match gs with
  | [] => [(k, Acc.new.accumulate s)]
  | (k', a) :: rest =>
    if k' == k then (k', a.accumulate s) :: rest
    else (k', a) :: updateGroups rest k s

/-- compute_analytics: one pass accumulating totals and (when group_by is
non-empty) per-group accumulators, then conversion to metric values. -/
def computeAnalytics (fmtDay fmtHour : Int → String) (spans : List Span)
    (query : AnalyticsQuery) : AnalyticsResponse :=
  let pass := spans.foldl
    (fun (acc : List (GroupKey × Acc) × Acc) s =>
      let totals := acc.2.accumulate s
      let groups :=
        if query.group_by.isEmpty then acc.1
        else updateGroups acc.1 (sortedKeyOf fmtDay fmtHour s query.group_by) s
      (groups, totals))
    ([], Acc.new)
  { groups := pass.1.map (fun g =>
      { key := g.1, metrics := g.2.to_metrics query.metrics }),
    totals := pass.2.to_metrics query.metrics }


-- === Intercepting LLM proxy (proxy/src/lib.rs) ===

/-- Json::as_str. -/
def Json.asStr : Json → Option String
  | .str s => some s
  | _ => none

/-- CaptureMode of the proxy. -/
inductive CaptureMode where
  | off
  | preview (maxChars : Nat)
  | full

/-- detect_provider: heuristic on the target URL. -/
def detect_provider (url : String) : Option String :=
  if strContains url "localhost:11434" || strContains url "ollama" then
    some "ollama"
  else if strContains url "api.openai.com" then some "openai"
  else if strContains url "api.anthropic.com" then some "anthropic"
  else none

/-- extract_model: the model field of a JSON body. -/
def extract_model (body : Json) : Option String :=
  (body.get "model").bind Json.asStr

/-- extract_tokens: provider-aware token extraction from the response body. -/
def extract_tokens (body : Json) (provider : Option String) :
    Option Nat × Option Nat :=
  match provider with
  | some "anthropic" =>
    (((body.get "usage").bind (fun u => u.get "input_tokens")).bind Json.asU64,
     ((body.get "usage").bind (fun u => u.get "output_tokens")).bind Json.asU64)
  | some "ollama" =>
    ((body.get "prompt_eval_count").bind Json.asU64,
     (body.get "eval_count").bind Json.asU64)
  | _ =>
    ((((body.get "usage").bind (fun u => u.get "prompt_tokens")).bind
        Json.asU64).orElse
       (fun _ => (body.get "prompt_eval_count").bind Json.asU64),
     (((body.get "usage").bind (fun u => u.get "completion_tokens")).bind
        Json.asU64).orElse
       (fun _ => (body.get "eval_count").bind Json.asU64))

/-- preview_string: truncation for preview mode (byte length on ASCII data). -/
def preview_string (s : String) (maxChars : Nat) : String :=
  if s.length ≤ maxChars then s else strTake s maxChars ++ "..."

/-- The span-construction slice of proxy_handler (before the forward): ids
and the clock are explicit parameters, the request body both raw (for
previews) and parsed (for model extraction). -/
def proxyBuildSpan (spanId traceId : Nat) (span_name : String)
    (reqJson : Option Json) (rawBody : String) (provider : Option String)
    (mode : CaptureMode) (now : Int) : Span :=
  let model := (reqJson.bind extract_model).getD "unknown"
  let input_preview :=
    match mode with
    | .off => none
    | .preview maxChars => some (preview_string rawBody maxChars)
    | .full => some rawBody
  let kind := SpanKind.llmCall model provider none none none input_preview none
  let input_payload :=
    match mode with
    | .off => none
    | _ => reqJson
  { id := spanId, trace_id := traceId, org_id := none, parent_id := none,
    name := span_name, kind := kind, status := .running, started_at := now,
    ended_at := none, input := input_payload, output := none }

/-- The response slice of proxy_handler (lines 183-247): extract tokens,
build the output payload per capture mode, stash the extracted counts into
the output object, then complete_span on 2xx or fail_span otherwise.
serde_json to_string for the preview is the render parameter. -/
def proxyHandleResponse (st : PStore) (spanId : Nat)
    (provider : Option String) (mode : CaptureMode) (render : Json → String)
    (statusOk : Bool) (statusCode : Nat) (respJson : Option Json) (now : Int)
    (backendOk : Bool) : PStore :=
  let tokens := (respJson.map (fun j => extract_tokens j provider)).getD
    (none, none)
  let output_payload : Option Json :=
    match mode with
    | .off => none
    | .preview _ => respJson.map (fun j =>
        Json.obj [("preview", Json.str (preview_string (render j) 500))])
    | .full => respJson
  let output_with_tokens := output_payload.map (fun v =>
    let v := match tokens.1 with
             | some it => v.objInsert "_input_tokens" (Json.num (Int.ofNat it))
             | none => v
    match tokens.2 with
    | some ot => v.objInsert "_output_tokens" (Json.num (Int.ofNat ot))
    | none => v)
  if statusOk then
    (st.complete_span spanId output_with_tokens now backendOk).2.1
  else
    (st.fail_span spanId ("HTTP " ++ toString statusCode) now backendOk).2.1

-- === Cross-node event bus (api/src/events.rs, RedisEventBus) ===

/-- An externally visible action of RedisEventBus::publish: an attempted
publish on the remote pub/sub channel, or a send on the local broadcast
channel. -/
inductive PubEff where
  | remote (channel : String) (payload : String)
  | localSend (event : Json)

/-- The well-known Redis channel name. -/
def redisChannel : String := "llmfs:events"

/-- RedisEventBus::publish: serialise (return early on failure), publish to
the remote channel, and only on a remote failure fall back to the local
broadcast. Serialisation is the ser parameter; remoteOk tells whether the
remote publish succeeds. -/
def redisPublish (event : Json) (ser : Json → Option String)
    (remoteOk : Bool) : List PubEff :=
  match ser event with
  | none => []
  | some payload =>
    if remoteOk then [.remote redisChannel payload]
    else [.remote redisChannel payload, .localSend event]

-- === Auth (auth/src/api_key.rs, auth/src/middleware.rs) ===

/-- Scope from auth/src/lib.rs. -/
inductive Scope where
  | tracesRead
  | tracesWrite
  | datasetsRead
  | datasetsWrite
  | analyticsRead
  | admin
deriving DecidableEq

/-- AuthError from auth/src/context.rs. -/
inductive AuthError where
  | missingAuth
  | invalidFormat
  | invalidApiKey
  | expiredApiKey
  | invalidSession
  | expiredSession
  | insufficientScope (required : Scope)
  | orgNotFound
  | userNotFound
deriving DecidableEq

/-- AuthError::status_code (middleware IntoResponse uses the same mapping). -/
def AuthError.status_code : AuthError → Nat
  | .missingAuth => 401
  | .invalidFormat => 401
  | .invalidApiKey => 401
  | .expiredApiKey => 401
  | .invalidSession => 401
  | .expiredSession => 401
  | .insufficientScope _ => 403
  | .orgNotFound => 404
  | .userNotFound => 404

/-- AuthContext from auth/src/context.rs. The nil org Uuid is 0. -/
structure AuthContext where
  org_id : Nat
  user_id : Option Nat
  scopes : List Scope
  is_local_mode : Bool
  is_api_key : Bool
deriving DecidableEq

namespace AuthContext

/-- AuthContext::local. -/
def «local» : AuthContext :=
  { org_id := 0, user_id := none,
    scopes := [.tracesRead, .tracesWrite, .datasetsRead, .datasetsWrite,
               .analyticsRead, .admin],
    is_local_mode := true, is_api_key := false }

/-- AuthContext::from_api_key. -/
def from_api_key (org_id : Nat) (scopes : List Scope) : AuthContext :=
  { org_id := org_id, user_id := none, scopes := scopes,
    is_local_mode := false, is_api_key := true }

/-- AuthContext::from_session. -/
def from_session (org_id : Nat) (user_id : Nat) (scopes : List Scope) :
    AuthContext :=
  { org_id := org_id, user_id := some user_id, scopes := scopes,
    is_local_mode := false, is_api_key := false }

end AuthContext

/-- SessionToken claims as far as the middleware consumes them. -/
structure SessionToken where
  org_id : Nat
  user_id : Nat
  scopes : List Scope

/-- The generator constant KEY_PREFIX = "tw_sk_" of auth/src/api_key.rs. -/
def keyPref : String := "tw_sk_"

/-- generate_api_key full-key construction: tw_sk_ followed by the URL-safe
base64 of 24 random bytes; the random part is a parameter. -/
def generate_key_string (randomPart : String) : String :=
  keyPref ++ randomPart

/-- is_api_key from auth/src/api_key.rs: tw_sk_ and length over 20. -/
def is_api_key (s : String) : Bool :=
  strStarts s keyPref && decide (s.length > 20)

/-- Rust str::strip_prefix of the literal "Bearer ". -/
def stripBearer (s : String) : Option String :=
  if strStarts s "Bearer " then some ⟨s.data.drop 7⟩ else none

/-- Rust str::strip_prefix of the literal "session=". -/
def stripSessionEq (s : String) : Option String :=
  if strStarts s "session=" then some ⟨s.data.drop 8⟩ else none

/-- extract_session_cookie: split on semicolons, trim, take session=. -/
def findSessionCookie : List String → Option String
  | [] => none
  | c :: rest =>
    match stripSessionEq c.trim with
    | some v => some v
    | none => findSessionCookie rest

/-- extract_session_cookie of middleware.rs. -/
def extract_session_cookie (cookies : String) : Option String :=
  findSessionCookie (cookies.splitOn ";")

/-- validate_api_key of middleware.rs: 16-char prefix lookup, then bcrypt
verification of the full key (bcrypt is the verifyKey parameter). -/
def validate_api_key (key : String)
    (lookup : String → Option (Nat × String × List Scope))
    (verifyKey : String → String → Bool) : Except AuthError AuthContext :=
  if 16 ≤ key.length then
    match lookup (strTake key 16) with
    | none => .error .invalidApiKey
    | some (orgId, keyHash, scopes) =>
      if verifyKey key keyHash then .ok (AuthContext.from_api_key orgId scopes)
      else .error .invalidApiKey
  else .error .invalidApiKey

/-- validate_session of middleware.rs; JWT verification is the parameter. -/
def validate_session (token : String)
    (verifySession : String → Except AuthError SessionToken) :
    Except AuthError AuthContext :=
  match verifySession token with
  | .ok s => .ok (AuthContext.from_session s.org_id s.user_id s.scopes)
  | .error e => .error e

/-- extract_auth of middleware.rs: Authorization Bearer first (API key only
when the token starts with the literal "llmfs_sk_", else JWT session), then
the session cookie, else MissingAuth. -/
def extract_auth (authorization : Option String) (cookie : Option String)
    (lookup : String → Option (Nat × String × List Scope))
    (verifyKey : String → String → Bool)
    (verifySession : String → Except AuthError SessionToken) :
    Except AuthError AuthContext :=
  match authorization with
  | some authStr =>
    match stripBearer authStr with
    | some token =>
      if strStarts token "llmfs_sk_" then validate_api_key token lookup verifyKey
      else validate_session token verifySession
    | none => .error .invalidFormat
  | none =>
    match cookie with
    | some cookieStr =>
      match extract_session_cookie cookieStr with
      | some session => validate_session session verifySession
      | none => .error .missingAuth
    | none => .error .missingAuth

/-- auth_middleware: local mode injects the local context and skips
extraction; cloud mode runs extract_auth. -/
def auth_middleware (local_mode : Bool) (authorization cookie : Option String)
    (lookup : String → Option (Nat × String × List Scope))
    (verifyKey : String → String → Bool)
    (verifySession : String → Except AuthError SessionToken) :
    Except AuthError AuthContext :=
  if local_mode then .ok AuthContext.«local»
  else extract_auth authorization cookie lookup verifyKey verifySession


-- === Specification-side definitions (stated from the spec, for comparison
-- with the implementation) ===

/-- Spec-side filter semantics: the conjunction of the populated fields,
with an inclusive started_at range and substring name matching. -/
def MatchesSpec (f : SpanFilter) (s : Span) : Prop :=
  (∀ k ∈ f.kind, s.kind.kind_name = k) ∧
  (∀ m ∈ f.model, s.kind.model = some m) ∧
  (∀ p ∈ f.provider, s.kind.provider = some p) ∧
  (∀ st ∈ f.status, s.status.as_str = st) ∧
  (∀ t ∈ f.since, t ≤ s.started_at) ∧
  (∀ t ∈ f.«until», s.started_at ≤ t) ∧
  (∀ n ∈ f.name_contains, n.data <:+: s.name.data) ∧
  (∀ p ∈ f.path, s.kind.path = some p) ∧
  (∀ t ∈ f.trace_id, s.trace_id = t)

/-- Number of failed spans in a list. -/
def failedCount (l : List Span) : Nat :=
  l.countP (fun s => match s.status with | .failed _ => true | _ => false)

/-- The spans that carry an ended_at (equivalently, a duration). -/
def endedSpans (l : List Span) : List Span :=
  l.filter (fun s => s.ended_at.isSome)

/-- Sum of the durations of the spans that have one. -/
def latencyTotal (l : List Span) : Rat :=
  ((l.filterMap Span.duration_ms).map (fun d => (d : Rat))).sum

/-- Average latency over the spans that have an ended_at; 0 when none do.
This is what the implementation computes. -/
def avgOverEnded (l : List Span) : Rat :=
  if 0 < (endedSpans l).length then
    latencyTotal l / ((endedSpans l).length : Rat)
  else 0

/-- Spec-side C5 reading: only completed spans with an ended_at. -/
def completedEnded (l : List Span) : List Span :=
  l.filter (fun s =>
    (match s.status with | .completed => true | _ => false) && s.ended_at.isSome)

/-- Spec-side C5 average: duration sum over count of the completed spans
with an ended_at (0 when there is none). -/
def completedOnlyAvg (l : List Span) : Rat :=
  if 0 < (completedEnded l).length then
    (((completedEnded l).filterMap Span.duration_ms).map (fun d => (d : Rat))).sum /
      ((completedEnded l).length : Rat)
  else 0

-- === Concrete sample values used by witnesses and counterexamples ===

/-- An empty persistent store. -/
def emptyStore : PStore :=
  { memory := SpanStore.new, trace_meta := [], file_versions := [],
    datasets := [], datapoints := [], queue_items := [] }

/-- A running custom span. -/
def spanRunningA : Span :=
  { id := 1, trace_id := 2, org_id := none, parent_id := none,
    name := "alpha work", kind := .custom "tool" [], status := .running,
    started_at := 10, ended_at := none, input := none, output := none }

/-- A completed llm-call span with a 100 ms duration. -/
def spanCompletedB : Span :=
  { id := 3, trace_id := 2, org_id := none, parent_id := none,
    name := "llm step", kind := .llmCall "gpt-4o" (some "openai") (some 5)
      (some 7) none none none,
    status := .completed, started_at := 0, ended_at := some 100,
    input := none, output := none }

/-- A failed custom span with a 50 ms duration. -/
def spanFailedC : Span :=
  { id := 4, trace_id := 5, org_id := none, parent_id := none,
    name := "job run", kind := .custom "job" [], status := .failed "boom",
    started_at := 0, ended_at := some 50, input := none, output := none }

/-- A sample trace. -/
def sampleTraceT : Trace :=
  { id := 9, org_id := none, name := some "t", tags := [], started_at := 0,
    ended_at := none, machine_id := none }

/-- A pending queue item. -/
def queuePendingQ : QueueItem :=
  { id := 11, dataset_id := 12, datapoint_id := 13, status := .pending,
    claimed_by := none, claimed_at := none, original_data := none,
    edited_data := none, created_at := 0 }

/-- A claimed queue item. -/
def queueClaimedQ : QueueItem :=
  { id := 15, dataset_id := 12, datapoint_id := 16, status := .claimed,
    claimed_by := some "ann", claimed_at := some 3, original_data := none,
    edited_data := none, created_at := 0 }

/-- A completed queue item. -/
def queueDoneQ : QueueItem :=
  { id := 17, dataset_id := 12, datapoint_id := 18, status := .completed,
    claimed_by := some "ann", claimed_at := some 3, original_data := none,
    edited_data := some (Json.str "edited"), created_at := 0 }

/-- Store with the three queue items. -/
def queueStore : PStore :=
  { emptyStore with queue_items := [queuePendingQ, queueClaimedQ, queueDoneQ] }

/-- Store holding a terminal (completed) span and a running span. -/
def terminalSpanStore : PStore :=
  { emptyStore with
    memory := { spans := [spanCompletedB, spanRunningA], traces := [] } }

/-- Span-store with two spans in one insertion order. -/
def storeAB : SpanStore := { spans := [spanCompletedB, spanFailedC], traces := [] }

/-- The same two spans in the other insertion order. -/
def storeBA : SpanStore := { spans := [spanFailedC, spanCompletedB], traces := [] }

/-- A one-field filter. -/
def sampleFilter : SpanFilter := { kind := some "llm_call" }

/-- Spans for the analytics examples: durations 100 (completed) and 50
(failed). -/
def spansC5 : List Span := [spanCompletedB, spanFailedC]

/-- The analytics query asking for average latency and error count. -/
def queryC5 : AnalyticsQuery :=
  { metrics := [.avgLatencyMs, .errorCount], group_by := [.status] }

/-- The generic-provider proxy request body. -/
def proxyReqJson : Json := Json.obj [("model", Json.str "gpt-4o")]

/-- The span the proxy synthesises for that request (capture mode Full,
unknown provider target). -/
def proxySpanP : Span :=
  proxyBuildSpan 21 22 "POST /v1/chat/completions" (some proxyReqJson)
    "raw body" (detect_provider "http://localhost:9999") .full 0

/-- The store after the proxy inserted the running span. -/
def proxyStore1 : PStore := (emptyStore.insertSpan proxySpanP true).2.1

/-- The upstream 2xx response body with generic provider token counts. -/
def proxyRespJson : Json :=
  Json.obj [("usage", Json.obj [("prompt_tokens", Json.num 10),
                                ("completion_tokens", Json.num 20)])]

/-- The store after the proxy handled that response. -/
def proxyStoreFinal : PStore :=
  proxyHandleResponse proxyStore1 21 (detect_provider "http://localhost:9999")
    .full (fun _ => "") true 200 (some proxyRespJson) 5 true


-- === Shared helper lemmas ===

/-- find? is unaffected by filtering with a predicate implied by the search
predicate. -/
theorem find?_filter_of_imp {α : Type} (p q : α → Bool) (l : List α)
    (h : ∀ x, p x = true → q x = true) :
    (l.filter q).find? p = l.find? p := by
  induction l with
  | nil => rfl
  | cons x t ih =>
    cases hq : q x with
    | false =>
      have hp : p x = false := by
        cases hp : p x with
        | false => rfl
        | true => rw [h x hp] at hq; exact absurd hq (by simp)
      simp [List.filter_cons, hq, List.find?_cons, hp, ih]
    | true =>
      cases hp : p x with
      | false => simp [List.filter_cons, hq, List.find?_cons, hp, ih]
      | true => simp [List.filter_cons, hq, List.find?_cons, hp]

/-- Association lookup across an append whose left part misses the key. -/
theorem lookup_append_of_none {α β : Type} [BEq α] (l1 l2 : List (α × β))
    (k : α) (h : l1.lookup k = none) :
    (l1 ++ l2).lookup k = l2.lookup k := by
  induction l1 with
  | nil => rfl
  | cons kv t ih =>
    obtain ⟨k', v⟩ := kv
    cases hk : (k == k') with
    | false =>
      simp [List.lookup, hk] at h ⊢
      exact ih h
    | true => simp [List.lookup, hk] at h

-- === C10 ===

/-- C10: on a running span, Span::fail changes only the status (to failed
with the given error) and ended_at (to the transition time); id, trace_id,
parent_id, org_id, name, kind, started_at, input and output are unchanged. -/
theorem C10_fail_frame (s : Span) (e : String) (now : Int)
    (h : s.status = .running) :
    (s.fail e now).status = .failed e ∧
    (s.fail e now).ended_at = some now ∧
    (s.fail e now).id = s.id ∧
    (s.fail e now).trace_id = s.trace_id ∧
    (s.fail e now).parent_id = s.parent_id ∧
    (s.fail e now).org_id = s.org_id ∧
    (s.fail e now).name = s.name ∧
    (s.fail e now).kind = s.kind ∧
    (s.fail e now).started_at = s.started_at ∧
    (s.fail e now).input = s.input ∧
    (s.fail e now).output = s.output := by
  simp [Span.fail, h, SpanStatus.is_terminal]

/-- Witness for C10 at a concrete running span. -/
theorem C10_fail_frame_witness :
    (spanRunningA.fail "boom" 99).status = .failed "boom" ∧
    (spanRunningA.fail "boom" 99).ended_at = some 99 ∧
    (spanRunningA.fail "boom" 99).id = spanRunningA.id ∧
    (spanRunningA.fail "boom" 99).trace_id = spanRunningA.trace_id ∧
    (spanRunningA.fail "boom" 99).parent_id = spanRunningA.parent_id ∧
    (spanRunningA.fail "boom" 99).org_id = spanRunningA.org_id ∧
    (spanRunningA.fail "boom" 99).name = spanRunningA.name ∧
    (spanRunningA.fail "boom" 99).kind = spanRunningA.kind ∧
    (spanRunningA.fail "boom" 99).started_at = spanRunningA.started_at ∧
    (spanRunningA.fail "boom" 99).input = spanRunningA.input ∧
    (spanRunningA.fail "boom" 99).output = spanRunningA.output :=
  C10_fail_frame spanRunningA "boom" 99 rfl

-- === C7 ===

/-- C7: save_file_content(h, b) then save_file_content(h, b') on a table not
yet holding h both succeed and leave the blob stored under h equal to b
(first writer wins); a following load_file_content(h) returns b. -/
theorem C7_save_file_content_dedup (tbl : FileContentTable) (hsh : String)
    (b b' : List Nat) (habs : tbl.rows.lookup hsh = none) :
    (save_file_content tbl hsh b).1 = .ok () ∧
    (save_file_content (save_file_content tbl hsh b).2 hsh b').1 = .ok () ∧
    load_file_content
      (save_file_content (save_file_content tbl hsh b).2 hsh b').2 hsh =
      .ok b := by
  have h1 : save_file_content tbl hsh b =
      (.ok (), ⟨tbl.rows ++ [(hsh, b)]⟩) := by
    simp [save_file_content, habs]
  have hlook : (tbl.rows ++ [(hsh, b)]).lookup hsh = some b := by
    rw [lookup_append_of_none _ _ _ habs]
    simp [List.lookup]
  have h2 : save_file_content (⟨tbl.rows ++ [(hsh, b)]⟩ : FileContentTable)
      hsh b' = (.ok (), ⟨tbl.rows ++ [(hsh, b)]⟩) := by
    simp [save_file_content, hlook]
  refine ⟨by simp [h1], by simp [h1, h2], ?_⟩
  simp [h1, h2, load_file_content, hlook]

/-- Witness for C7 on the empty table. -/
theorem C7_save_file_content_dedup_witness :
    (FileContentTable.mk []).rows.lookup "h1" = none ∧
    ((save_file_content ⟨[]⟩ "h1" [1, 2]).1 = .ok () ∧
     (save_file_content (save_file_content ⟨[]⟩ "h1" [1, 2]).2 "h1" [3]).1 =
       .ok () ∧
     load_file_content
       (save_file_content (save_file_content ⟨[]⟩ "h1" [1, 2]).2 "h1" [3]).2
       "h1" = .ok [1, 2]) :=
  ⟨rfl, C7_save_file_content_dedup ⟨[]⟩ "h1" [1, 2] [3] rfl⟩


/-- Removing an element by id and re-inserting it (HashMap remove followed
by insert of the found element) preserves every lookup. -/
theorem get_cons_filter_generic {α : Type} (idOf : α → Nat) (l : List α)
    (id : Nat) (a : α) (hfind : l.find? (fun t => idOf t == id) = some a)
    (j : Nat) :
    (a :: (l.filter (fun t => idOf t != id)).filter
        (fun t => idOf t != idOf a)).find? (fun t => idOf t == j) =
      l.find? (fun t => idOf t == j) := by
  have hid : idOf a = id := by
    have := List.find?_some hfind
    simpa using this
  by_cases hj : j = id
  · subst hj
    rw [List.find?_cons_of_pos _ (by simp [hid])]
    exact hfind.symm
  · rw [List.find?_cons_of_neg _ (by simp [hid]; exact fun hc => hj hc.symm)]
    rw [find?_filter_of_imp _ _ _ (fun x hx => by
      simp at hx ⊢
      rw [hid]
      intro hc; exact hj (hc ▸ hx ▸ rfl))]
    rw [find?_filter_of_imp _ _ _ (fun x hx => by
      simp at hx ⊢
      intro hc; exact hj (hc ▸ hx ▸ rfl))]

-- === C3 ===

/-- C3: once a stored span is terminal, complete_span and fail_span return
none and leave every stored span unchanged; on an absent id both return
none and leave the store untouched; hence at most one terminal transition. -/
theorem C3_terminal_immutable (st : PStore) (id id2 : Nat) (s : Span)
    (out : Option Json) (err : String) (now : Int) (ok : Bool)
    (hget : st.get id = some s) (hterm : s.status.is_terminal = true)
    (hnone : st.get id2 = none) :
    ((st.complete_span id out now ok).1 = none ∧
     ∀ j, (st.complete_span id out now ok).2.1.get j = st.get j) ∧
    ((st.fail_span id err now ok).1 = none ∧
     ∀ j, (st.fail_span id err now ok).2.1.get j = st.get j) ∧
    ((st.complete_span id2 out now ok).1 = none ∧
     (st.complete_span id2 out now ok).2.1 = st) ∧
    ((st.fail_span id2 err now ok).1 = none ∧
     (st.fail_span id2 err now ok).2.1 = st) := by
  have hfind : st.memory.spans.find? (fun t => t.id == id) = some s := hget
  have hfind2 : st.memory.spans.find? (fun t => t.id == id2) = none := hnone
  refine ⟨⟨?_, ?_⟩, ⟨?_, ?_⟩, ⟨?_, ?_⟩, ⟨?_, ?_⟩⟩
  · simp [PStore.complete_span, SpanStore.removeSpan, hfind, hterm]
  · intro j
    simp only [PStore.complete_span, SpanStore.removeSpan, hfind, hterm]
    simpa [SpanStore.replace, PStore.get, SpanStore.get] using
      get_cons_filter_generic Span.id st.memory.spans id s hfind j
  · simp [PStore.fail_span, SpanStore.removeSpan, hfind, hterm]
  · intro j
    simp only [PStore.fail_span, SpanStore.removeSpan, hfind, hterm]
    simpa [SpanStore.replace, PStore.get, SpanStore.get] using
      get_cons_filter_generic Span.id st.memory.spans id s hfind j
  · simp [PStore.complete_span, SpanStore.removeSpan, hfind2]
  · simp [PStore.complete_span, SpanStore.removeSpan, hfind2]
  · simp [PStore.fail_span, SpanStore.removeSpan, hfind2]
  · simp [PStore.fail_span, SpanStore.removeSpan, hfind2]

/-- Witness for C3 on a store whose span 3 is completed and 99 is absent. -/
theorem C3_terminal_immutable_witness :
    terminalSpanStore.get 3 = some spanCompletedB ∧
    spanCompletedB.status.is_terminal = true ∧
    terminalSpanStore.get 99 = none ∧
    (((terminalSpanStore.complete_span 3 none 7 true).1 = none ∧
      ∀ j, (terminalSpanStore.complete_span 3 none 7 true).2.1.get j =
        terminalSpanStore.get j) ∧
     ((terminalSpanStore.fail_span 3 "e" 7 true).1 = none ∧
      ∀ j, (terminalSpanStore.fail_span 3 "e" 7 true).2.1.get j =
        terminalSpanStore.get j) ∧
     ((terminalSpanStore.complete_span 99 none 7 true).1 = none ∧
      (terminalSpanStore.complete_span 99 none 7 true).2.1 =
        terminalSpanStore) ∧
     ((terminalSpanStore.fail_span 99 "e" 7 true).1 = none ∧
      (terminalSpanStore.fail_span 99 "e" 7 true).2.1 = terminalSpanStore)) :=
  ⟨rfl, rfl, rfl,
   C3_terminal_immutable terminalSpanStore 3 99 spanCompletedB none "e" 7 true
     rfl rfl rfl⟩

-- === C8 ===

/-- C8: claim_queue_item succeeds exactly on pending items (producing a
claimed item), complete_queue_item exactly on claimed items (producing a
completed item); on violation both return none and leave every stored item
unchanged, and an absent id yields none with the store untouched, so a
queue item only ever moves pending -> claimed -> completed. -/
theorem C8_queue_state_machine (st : PStore) (id id2 : Nat) (q : QueueItem)
    (claimer : String) (ed : Option Json) (now : Int) (ok : Bool)
    (hget : st.get_queue_item id = some q) (hnone : st.get_queue_item id2 = none) :
    (q.status = .pending →
      (st.claim_queue_item id claimer now ok).1 = some (q.claim claimer now) ∧
      (st.claim_queue_item id claimer now ok).2.1.get_queue_item id =
        some (q.claim claimer now) ∧
      (q.claim claimer now).status = .claimed) ∧
    (q.status ≠ .pending →
      (st.claim_queue_item id claimer now ok).1 = none ∧
      ∀ j, (st.claim_queue_item id claimer now ok).2.1.get_queue_item j =
        st.get_queue_item j) ∧
    (q.status = .claimed →
      (st.complete_queue_item id ed ok).1 = some (q.complete ed) ∧
      (st.complete_queue_item id ed ok).2.1.get_queue_item id =
        some (q.complete ed) ∧
      (q.complete ed).status = .completed) ∧
    (q.status ≠ .claimed →
      (st.complete_queue_item id ed ok).1 = none ∧
      ∀ j, (st.complete_queue_item id ed ok).2.1.get_queue_item j =
        st.get_queue_item j) ∧
    (∀ q', (st.claim_queue_item id claimer now ok).1 = some q' →
      q.status = .pending ∧ q'.status = .claimed) ∧
    (∀ q', (st.complete_queue_item id ed ok).1 = some q' →
      q.status = .claimed ∧ q'.status = .completed) ∧
    ((st.claim_queue_item id2 claimer now ok).1 = none ∧
     (st.claim_queue_item id2 claimer now ok).2.1 = st) ∧
    ((st.complete_queue_item id2 ed ok).1 = none ∧
     (st.complete_queue_item id2 ed ok).2.1 = st) := by
  have hfind : st.queue_items.find? (fun t => t.id == id) = some q := hget
  have hfind2 : st.queue_items.find? (fun t => t.id == id2) = none := hnone
  have hid : q.id = id := by
    have := List.find?_some hfind
    simpa using this
  refine ⟨?_, ?_, ?_, ?_, ?_, ?_, ?_, ?_⟩
  · intro hp
    refine ⟨?_, ?_, rfl⟩
    · simp [PStore.claim_queue_item, hfind, hp]
    · simp only [PStore.claim_queue_item, hfind, hp]
      rw [if_neg (fun hc => hc rfl)]
      simp only [putQueueItem, PStore.get_queue_item]
      rw [List.find?_cons_of_pos _ (by simp [QueueItem.claim, hid])]
  · intro hp
    refine ⟨?_, ?_⟩
    · simp [PStore.claim_queue_item, hfind, hp]
    · intro j
      simp only [PStore.claim_queue_item, hfind, if_pos hp]
      simpa [putQueueItem, PStore.get_queue_item] using
        get_cons_filter_generic QueueItem.id st.queue_items id q hfind j
  · intro hp
    refine ⟨?_, ?_, rfl⟩
    · simp [PStore.complete_queue_item, hfind, hp]
    · simp only [PStore.complete_queue_item, hfind, hp]
      rw [if_neg (fun hc => hc rfl)]
      simp only [putQueueItem, PStore.get_queue_item]
      rw [List.find?_cons_of_pos _ (by simp [QueueItem.complete, hid])]
  · intro hp
    refine ⟨?_, ?_⟩
    · simp [PStore.complete_queue_item, hfind, hp]
    · intro j
      simp only [PStore.complete_queue_item, hfind, if_pos hp]
      simpa [putQueueItem, PStore.get_queue_item] using
        get_cons_filter_generic QueueItem.id st.queue_items id q hfind j
  · intro q' hq'
    by_cases hp : q.status = .pending
    · refine ⟨hp, ?_⟩
      simp [PStore.claim_queue_item, hfind, hp] at hq'
      rw [← hq']
      rfl
    · simp [PStore.claim_queue_item, hfind, hp] at hq'
  · intro q' hq'
    by_cases hp : q.status = .claimed
    · refine ⟨hp, ?_⟩
      simp [PStore.complete_queue_item, hfind, hp] at hq'
      rw [← hq']
      rfl
    · simp [PStore.complete_queue_item, hfind, hp] at hq'
  · constructor <;> simp [PStore.claim_queue_item, hfind2]
  · constructor <;> simp [PStore.complete_queue_item, hfind2]


/-- Witness for C8 on the concrete queue store (pending item 11, absent 99). -/
theorem C8_queue_state_machine_witness :
    queueStore.get_queue_item 11 = some queuePendingQ ∧
    queueStore.get_queue_item 99 = none ∧
    queuePendingQ.status = .pending ∧
    ((queueStore.claim_queue_item 11 "bob" 4 true).1 =
       some (queuePendingQ.claim "bob" 4) ∧
     (queueStore.claim_queue_item 11 "bob" 4 true).2.1.get_queue_item 11 =
       some (queuePendingQ.claim "bob" 4) ∧
     (queuePendingQ.claim "bob" 4).status = .claimed) ∧
    ((queueStore.complete_queue_item 11 none true).1 = none ∧
     ∀ j, (queueStore.complete_queue_item 11 none true).2.1.get_queue_item j =
       queueStore.get_queue_item j) :=
  have h := C8_queue_state_machine queueStore 11 99 queuePendingQ "bob" none 4
    true rfl rfl
  ⟨rfl, rfl, rfl, h.1 rfl, h.2.2.2.1 (by decide)⟩

-- === C4 ===

/-- C4 (code bug): a key produced by the generator (prefix tw_sk_) is
recognised by is_api_key, yet in cloud mode the middleware only routes
tokens starting with the literal llmfs_sk_ to the API-key path, so the
generated key falls through to JWT session validation and is rejected 401
even when the lookup table holds its prefix and bcrypt verification would
succeed. -/
theorem C4_generated_key_rejected :
    is_api_key (generate_key_string "AAAAAAAAAAAAAAAAAAAAAAAAAAAAAAAA") = true ∧
    auth_middleware false
      (some ("Bearer " ++ generate_key_string "AAAAAAAAAAAAAAAAAAAAAAAAAAAAAAAA"))
      none
      (fun p =>
        if p = strTake (generate_key_string "AAAAAAAAAAAAAAAAAAAAAAAAAAAAAAAA") 16
        then some (7, "stored-hash", [Scope.tracesRead]) else none)
      (fun _ _ => true)
      (fun _ => .error .invalidSession) = .error .invalidSession ∧
    AuthError.status_code .invalidSession = 401 := by
  exact ⟨rfl, rfl, rfl⟩

-- === C9 ===

/-- C9 (counterexample): when the remote publish succeeds, publish emits no
local broadcast of the event, refuting that it always broadcasts locally. -/
theorem C9_counterexample :
    redisPublish (Json.str "ev") (fun _ => some "payload") true =
      [PubEff.remote redisChannel "payload"] ∧
    PubEff.localSend (Json.str "ev") ∉
      redisPublish (Json.str "ev") (fun _ => some "payload") true := by
  constructor
  · rfl
  · simp [redisPublish]

/-- C9 amended: publish serialises the event, always attempts the publish on
the well-known remote channel, and broadcasts on the local channel exactly
when the remote publish fails. -/
theorem C9_publish_local_fallback (ev : Json) (ser : Json → Option String)
    (p : String) (remoteOk : Bool) (hser : ser ev = some p) :
    redisPublish ev ser remoteOk =
      if remoteOk then [PubEff.remote redisChannel p]
      else [PubEff.remote redisChannel p, PubEff.localSend ev] := by
  simp [redisPublish, hser]

/-- Witness for C9 with a failing remote publish. -/
theorem C9_publish_local_fallback_witness :
    (fun _ => some "p" : Json → Option String) (Json.str "x") = some "p" ∧
    redisPublish (Json.str "x") (fun _ => some "p") false =
      [PubEff.remote redisChannel "p", PubEff.localSend (Json.str "x")] :=
  ⟨rfl, C9_publish_local_fallback (Json.str "x") (fun _ => some "p") "p" false rfl⟩

-- === C2 ===

/-- C2 (counterexample): save_trace calls the backend before the in-memory
insert, refuting that every mutating operation mutates memory first. -/
theorem C2_counterexample :
    (emptyStore.save_trace sampleTraceT true).2 = [Eff.backend, Eff.mem] ∧
    memThenBackend (emptyStore.save_trace sampleTraceT true).2 = false := by
  exact ⟨rfl, rfl⟩

/-- C2 amended: the span-side operations (insert, complete, fail, deletes,
clear) mutate memory before the backend call, while the entity saves
(save_trace, save_file_version, save_dataset, save_datapoint,
save_queue_item) call the backend before inserting into memory; in every
case a backend error does not roll back the in-memory mutation: results and
post-states are independent of the backend outcome and the saved entity is
readable from memory afterwards. -/
theorem C2_write_through_order (st : PStore) (s : Span) (t : Trace)
    (v : FileVersion) (d : Dataset) (dp : Datapoint) (q : QueueItem)
    (id tid : Nat) (out ed : Option Json) (err claimer : String) (now : Int)
    (ok : Bool) :
    memThenBackend (st.insertSpan s ok).2.2 = true ∧
    memThenBackend (st.complete_span id out now ok).2.2 = true ∧
    memThenBackend (st.fail_span id err now ok).2.2 = true ∧
    memThenBackend (st.delete_span id ok).2.2 = true ∧
    memThenBackend (st.delete_trace tid ok).2.2 = true ∧
    memThenBackend (st.clear ok).2 = true ∧
    memThenBackend (st.delete_dataset id ok).2.2 = true ∧
    memThenBackend (st.delete_datapoint id ok).2.2 = true ∧
    (st.save_trace t ok).2 = [Eff.backend, Eff.mem] ∧
    (st.save_file_version v ok).2 = [Eff.backend, Eff.mem] ∧
    (st.save_dataset d ok).2 = [Eff.backend, Eff.mem] ∧
    (st.save_datapoint dp ok).2 = [Eff.backend, Eff.mem] ∧
    (st.save_queue_item q ok).2 = [Eff.backend, Eff.mem] ∧
    st.insertSpan s ok = st.insertSpan s true ∧
    st.complete_span id out now ok = st.complete_span id out now true ∧
    st.fail_span id err now ok = st.fail_span id err now true ∧
    st.delete_span id ok = st.delete_span id true ∧
    st.delete_trace tid ok = st.delete_trace tid true ∧
    st.clear ok = st.clear true ∧
    st.save_trace t ok = st.save_trace t true ∧
    st.save_file_version v ok = st.save_file_version v true ∧
    st.save_dataset d ok = st.save_dataset d true ∧
    st.save_datapoint dp ok = st.save_datapoint dp true ∧
    st.save_queue_item q ok = st.save_queue_item q true ∧
    st.delete_dataset id ok = st.delete_dataset id true ∧
    st.delete_datapoint id ok = st.delete_datapoint id true ∧
    st.claim_queue_item id claimer now ok =
      st.claim_queue_item id claimer now true ∧
    st.complete_queue_item id ed ok = st.complete_queue_item id ed true ∧
    (st.insertSpan s ok).2.1.get s.id = some s ∧
    (st.save_trace t ok).1.get_trace t.id = some t ∧
    (st.save_dataset d ok).1.get_dataset d.id = some d ∧
    (st.save_datapoint dp ok).1.get_datapoint dp.id = some dp ∧
    (st.save_queue_item q ok).1.get_queue_item q.id = some q := by
  refine ⟨?_, ?_, ?_, ?_, ?_, rfl, ?_, ?_, rfl, rfl, rfl, rfl, rfl,
    rfl, rfl, rfl, rfl, rfl, rfl, rfl, rfl, rfl, rfl, rfl, rfl, rfl, rfl, rfl,
    ?_, ?_, ?_, ?_, ?_⟩
  · simp [PStore.insertSpan, SpanStore.insert, SpanStore.get,
      List.find?_cons, memThenBackend]
  · simp only [PStore.complete_span, SpanStore.removeSpan]
    cases hf : st.memory.spans.find? (fun t => t.id == id) with
    | none => rfl
    | some s' =>
      cases ht : s'.status.is_terminal <;> simp [ht, memThenBackend]
  · simp only [PStore.fail_span, SpanStore.removeSpan]
    cases hf : st.memory.spans.find? (fun t => t.id == id) with
    | none => rfl
    | some s' =>
      cases ht : s'.status.is_terminal <;> simp [ht, memThenBackend]
  · simp only [PStore.delete_span, SpanStore.delete_span]
    cases hf : st.memory.spans.find? (fun t => t.id == id) <;> rfl
  · simp only [PStore.delete_trace]
    by_cases hc : 0 < (st.memory.delete_trace tid).1 <;>
      simp [hc, memThenBackend]
  · simp only [PStore.delete_dataset]
    by_cases hf : (st.datasets.find? (fun dd => dd.id == id)).isSome <;>
      simp [hf, memThenBackend]
  · simp only [PStore.delete_datapoint]
    by_cases hf : (st.datapoints.find? (fun pp => pp.id == id)).isSome <;>
      simp [hf, memThenBackend]
  · simp [PStore.insertSpan, SpanStore.insert, SpanStore.get, PStore.get,
      List.find?_cons]
  · simp only [PStore.save_trace, putTrace, PStore.get_trace]
    rw [List.find?_cons_of_pos _ (by simp)]
  · simp only [PStore.save_dataset, putDataset, PStore.get_dataset]
    rw [List.find?_cons_of_pos _ (by simp)]
  · simp only [PStore.save_datapoint, putDatapoint, PStore.get_datapoint]
    rw [List.find?_cons_of_pos _ (by simp)]
  · simp only [PStore.save_queue_item, putQueueItem, PStore.get_queue_item]
    rw [List.find?_cons_of_pos _ (by simp)]


/-- assocPut makes the inserted key map to the inserted value. -/
theorem assocPut_lookup_self (f : List (String × Json)) (k : String)
    (v : Json) : (Json.assocPut f k v).lookup k = some v := by
  induction f with
  | nil => simp [Json.assocPut, List.lookup]
  | cons kv rest ih =>
    obtain ⟨k', v'⟩ := kv
    by_cases hk : k' = k
    · subst hk
      simp [Json.assocPut, List.lookup]
    · have hk2 : (k' == k) = false := by simp [hk]
      have hk3 : (k == k') = false := by
        simp
        exact fun hc => hk hc.symm
      simp [Json.assocPut, hk2, List.lookup, hk3, ih]

/-- assocPut leaves every other key unchanged. -/
theorem assocPut_lookup_ne (f : List (String × Json)) (k : String) (v : Json)
    (k' : String) (h : k' ≠ k) :
    (Json.assocPut f k v).lookup k' = f.lookup k' := by
  induction f with
  | nil =>
    have : (k' == k) = false := by simp [h]
    simp [Json.assocPut, List.lookup, this]
  | cons kv rest ih =>
    obtain ⟨k0, v0⟩ := kv
    by_cases hk : k0 = k
    · subst hk
      have : (k' == k0) = false := by simp [h]
      simp [Json.assocPut, List.lookup, this]
    · have hk2 : (k0 == k) = false := by simp [hk]
      cases hkk : (k' == k0) <;> simp [Json.assocPut, hk2, List.lookup, hkk, ih]

/-- Inserting into an object makes the key readable. -/
theorem objInsert_get_self (fields : List (String × Json)) (k : String)
    (v : Json) : ((Json.obj fields).objInsert k v).get k = some v := by
  simp [Json.objInsert, Json.get, assocPut_lookup_self]

/-- Inserting into an object leaves other keys unchanged. -/
theorem objInsert_get_ne (fields : List (String × Json)) (k : String)
    (v : Json) (k' : String) (h : k' ≠ k) :
    ((Json.obj fields).objInsert k v).get k' = (Json.obj fields).get k' := by
  simp [Json.objInsert, Json.get, assocPut_lookup_ne _ _ _ _ h]

-- === C1 ===

/-- C1 (counterexample): after proxying a 2xx response carrying
usage.prompt_tokens 10 / completion_tokens 20 through the modelled handler,
the completed span's kind reports no token counts at all (they are not
input_tokens=10 / output_tokens=20 / total_tokens=30 as claimed): the proxy
completes the span via complete_span, leaving the creation-time kind. -/
theorem C1_counterexample :
    (proxyStoreFinal.get 21).map (fun s =>
        (s.status, s.kind.input_tokens, s.kind.output_tokens,
         s.kind.total_tokens)) =
      some (SpanStatus.completed, none, none, none) ∧
    (proxyStoreFinal.get 21).map (fun s =>
        (s.status, s.kind.input_tokens, s.kind.output_tokens,
         s.kind.total_tokens)) ≠
      some (SpanStatus.completed, some 10, some 20, some 30) := by
  have h1 : (proxyStoreFinal.get 21).map (fun s =>
      (s.status, s.kind.input_tokens, s.kind.output_tokens,
       s.kind.total_tokens)) =
      some (SpanStatus.completed, none, none, none) := rfl
  exact ⟨h1, by rw [h1]; decide⟩

/-- C1 amended: on a 2xx JSON response from which the provider-aware
extraction yields token counts (i, o), the proxy (capture mode Full)
completes the running span via complete_span: the stored span becomes
completed at the response time with the upstream JSON as output, carrying
the extracted counts under the _input_tokens / _output_tokens output keys,
while the span kind (including its absent token fields) stays as created. -/
theorem C1_proxy_tokens_in_output (st : PStore) (id : Nat) (s : Span)
    (fields : List (String × Json)) (provider : Option String)
    (render : Json → String) (code : Nat) (now : Int) (ok : Bool) (i o : Nat)
    (hget : st.get id = some s) (hrun : s.status = .running)
    (htok : extract_tokens (Json.obj fields) provider = (some i, some o)) :
    ∃ out : Json,
      (proxyHandleResponse st id provider .full render true code
          (some (Json.obj fields)) now ok).get id =
        some { s with status := .completed, ended_at := some now,
                      output := some out } ∧
      out.get "_input_tokens" = some (Json.num (Int.ofNat i)) ∧
      out.get "_output_tokens" = some (Json.num (Int.ofNat o)) := by
  have hfind : st.memory.spans.find? (fun t => t.id == id) = some s := hget
  have hid : s.id = id := by
    have := List.find?_some hfind
    simpa using this
  refine ⟨((Json.obj fields).objInsert "_input_tokens"
      (Json.num (Int.ofNat i))).objInsert "_output_tokens"
      (Json.num (Int.ofNat o)), ?_, ?_, ?_⟩
  · simp only [proxyHandleResponse, Option.map_some', Option.getD_some, htok,
      if_true]
    simp only [PStore.complete_span, SpanStore.removeSpan, hfind]
    rw [if_neg (by simp [hrun, SpanStatus.is_terminal])]
    simp only [PStore.get, SpanStore.get, SpanStore.replace]
    rw [List.find?_cons_of_pos _ (by simp [Span.complete, hrun,
      SpanStatus.is_terminal, hid])]
    simp [Span.complete, hrun, SpanStatus.is_terminal]
  · rw [show (Json.obj fields).objInsert "_input_tokens"
        (Json.num (Int.ofNat i)) =
        Json.obj (Json.assocPut fields "_input_tokens"
          (Json.num (Int.ofNat i))) from rfl]
    rw [objInsert_get_ne _ _ _ _ (by decide)]
    exact objInsert_get_self _ _ _
  · rw [show (Json.obj fields).objInsert "_input_tokens"
        (Json.num (Int.ofNat i)) =
        Json.obj (Json.assocPut fields "_input_tokens"
          (Json.num (Int.ofNat i))) from rfl]
    exact objInsert_get_self _ _ _

/-- Witness for C1 amended at the concrete generic-provider response. -/
theorem C1_proxy_tokens_in_output_witness :
    proxyStore1.get 21 = some proxySpanP ∧
    proxySpanP.status = .running ∧
    extract_tokens proxyRespJson none = (some 10, some 20) ∧
    (∃ out : Json,
      (proxyHandleResponse proxyStore1 21 none .full (fun _ => "") true 200
          (some proxyRespJson) 5 true).get 21 =
        some { proxySpanP with status := .completed, ended_at := some 5,
                               output := some out } ∧
      out.get "_input_tokens" = some (Json.num 10) ∧
      out.get "_output_tokens" = some (Json.num 20)) := by
  refine ⟨rfl, rfl, rfl, ?_⟩
  exact C1_proxy_tokens_in_output proxyStore1 21 proxySpanP
    [("usage", Json.obj [("prompt_tokens", Json.num 10),
                         ("completion_tokens", Json.num 20)])]
    none (fun _ => "") 200 5 true 10 20 rfl rfl rfl


/-- isPre decides list prefixing. -/
theorem isPre_iff (n h : List Char) : isPre n h = true ↔ n <+: h := by
  induction n generalizing h with
  | nil => simp [isPre]
  | cons c cs ih =>
    cases h with
    | nil => simp [isPre]
    | cons d ds => simp [isPre, Bool.and_eq_true, ih, List.cons_prefix_cons]

/-- subAux decides substring containment. -/
theorem subAux_iff (n h : List Char) : subAux n h = true ↔ n <:+: h := by
  induction h with
  | nil => simp [subAux, List.isEmpty_iff]
  | cons c t ih =>
    simp [subAux, Bool.or_eq_true, isPre_iff, ih, List.infix_cons_iff]

/-- strContains decides substring containment on the character data. -/
theorem strContains_iff (hay nee : String) :
    strContains hay nee = true ↔ nee.data <:+: hay.data :=
  subAux_iff nee.data hay.data

/-- The kind check agrees with the spec-side clause. -/
theorem checkKind_iff (f : SpanFilter) (s : Span) :
    checkKind f s = true ↔ ∀ k ∈ f.kind, s.kind.kind_name = k := by
  cases hk : f.kind <;> simp [checkKind, hk]

/-- The model check agrees with the spec-side clause. -/
theorem checkModel_iff (f : SpanFilter) (s : Span) :
    checkModel f s = true ↔ ∀ m ∈ f.model, s.kind.model = some m := by
  cases hk : f.model with
  | none => simp [checkModel, hk]
  | some m => cases hm : s.kind.model <;> simp [checkModel, hk, hm]

/-- The provider check agrees with the spec-side clause. -/
theorem checkProvider_iff (f : SpanFilter) (s : Span) :
    checkProvider f s = true ↔ ∀ p ∈ f.provider, s.kind.provider = some p := by
  cases hk : f.provider with
  | none => simp [checkProvider, hk]
  | some p => cases hp : s.kind.provider <;> simp [checkProvider, hk, hp]

/-- The status check agrees with the spec-side clause. -/
theorem checkStatus_iff (f : SpanFilter) (s : Span) :
    checkStatus f s = true ↔ ∀ st ∈ f.status, s.status.as_str = st := by
  cases hk : f.status <;> simp [checkStatus, hk]

/-- The since check is the inclusive lower bound on started_at. -/
theorem checkSince_iff (f : SpanFilter) (s : Span) :
    checkSince f s = true ↔ ∀ t ∈ f.since, t ≤ s.started_at := by
  cases hk : f.since with
  | none => simp [checkSince, hk]
  | some t => simp [checkSince, hk, not_lt]

/-- The until check is the inclusive upper bound on started_at. -/
theorem checkUntil_iff (f : SpanFilter) (s : Span) :
    checkUntil f s = true ↔ ∀ t ∈ f.«until», s.started_at ≤ t := by
  cases hk : f.«until» with
  | none => simp [checkUntil, hk]
  | some t => simp [checkUntil, hk, gt_iff_lt, not_lt]

/-- The name check is substring containment. -/
theorem checkNameContains_iff (f : SpanFilter) (s : Span) :
    checkNameContains f s = true ↔
      ∀ n ∈ f.name_contains, n.data <:+: s.name.data := by
  cases hk : f.name_contains <;>
    simp [checkNameContains, hk, strContains_iff]

/-- The path check agrees with the spec-side clause. -/
theorem checkPath_iff (f : SpanFilter) (s : Span) :
    checkPath f s = true ↔ ∀ p ∈ f.path, s.kind.path = some p := by
  cases hk : f.path with
  | none => simp [checkPath, hk]
  | some p => cases hp : s.kind.path <;> simp [checkPath, hk, hp]

/-- The trace check agrees with the spec-side clause. -/
theorem checkTraceId_iff (f : SpanFilter) (s : Span) :
    checkTraceId f s = true ↔ ∀ t ∈ f.trace_id, s.trace_id = t := by
  cases hk : f.trace_id <;> simp [checkTraceId, hk]

/-- The whole filter closure agrees with the spec-side conjunction. -/
theorem spanChecks_iff (f : SpanFilter) (s : Span) :
    (checkKind f s && checkModel f s && checkProvider f s && checkStatus f s &&
     checkSince f s && checkUntil f s && checkNameContains f s &&
     checkPath f s && checkTraceId f s) = true ↔ MatchesSpec f s := by
  rw [MatchesSpec]
  simp only [Bool.and_eq_true, checkKind_iff, checkModel_iff,
    checkProvider_iff, checkStatus_iff, checkSince_iff, checkUntil_iff,
    checkNameContains_iff, checkPath_iff, checkTraceId_iff]
  tauto

-- === C6 ===

/-- C6: filter_spans returns exactly the stored spans satisfying the
conjunction of the populated filter fields (equal kind name, model,
provider, status string, path, trace id, inclusive started_at range,
substring name match); the result is permutation-invariant in the stored
order, and the empty filter returns every span. -/
theorem C6_filter_equivalence (st st' : SpanStore) (f : SpanFilter)
    (hperm : st.spans.Perm st'.spans) :
    (∀ s, s ∈ st.filter_spans f ↔ s ∈ st.spans ∧ MatchesSpec f s) ∧
    (st.filter_spans f).Perm (st'.filter_spans f) ∧
    st.filter_spans {} = st.spans := by
  refine ⟨?_, ?_, ?_⟩
  · intro s
    rw [SpanStore.filter_spans, List.mem_filter]
    exact and_congr_right (fun _ => spanChecks_iff f s)
  · exact hperm.filter _
  · rw [SpanStore.filter_spans]
    simp [checkKind, checkModel, checkProvider, checkStatus, checkSince,
      checkUntil, checkNameContains, checkPath, checkTraceId]

/-- Witness for C6 on the two-span stores in both insertion orders. -/
theorem C6_filter_equivalence_witness :
    storeAB.spans.Perm storeBA.spans ∧
    ((∀ s, s ∈ storeAB.filter_spans sampleFilter ↔
        s ∈ storeAB.spans ∧ MatchesSpec sampleFilter s) ∧
     (storeAB.filter_spans sampleFilter).Perm
       (storeBA.filter_spans sampleFilter) ∧
     storeAB.filter_spans {} = storeAB.spans) :=
  have hperm : storeAB.spans.Perm storeBA.spans :=
    List.Perm.swap spanFailedC spanCompletedB []
  ⟨hperm, C6_filter_equivalence storeAB storeBA sampleFilter hperm⟩


/-- Field effect of one accumulate step on the latency and error fields. -/
theorem accumulate_stats (a : Acc) (s : Span) :
    (a.accumulate s).latency_sum_ms =
      a.latency_sum_ms +
        (match s.duration_ms with | some d => (d : Rat) | none => 0) ∧
    (a.accumulate s).latency_count =
      a.latency_count + (if (s.duration_ms).isSome then 1 else 0) ∧
    (a.accumulate s).error_count =
      a.error_count + (match s.status with | .failed _ => 1 | _ => 0) := by
  cases hs : s.status <;> cases hd : s.duration_ms <;>
    cases hc : s.kind.cost <;> cases hi : s.kind.input_tokens <;>
    cases ho : s.kind.output_tokens <;> cases ht : s.kind.total_tokens <;>
    simp [Acc.accumulate, hs, hd, hc, hi, ho, ht]

/-- Accumulating a span list adds the duration sum, the count of spans with
a duration, and the count of failed spans. -/
theorem accList_stats (l : List Span) (a : Acc) :
    (l.foldl (fun x s => x.accumulate s) a).latency_sum_ms =
      a.latency_sum_ms + latencyTotal l ∧
    (l.foldl (fun x s => x.accumulate s) a).latency_count =
      a.latency_count + (endedSpans l).length ∧
    (l.foldl (fun x s => x.accumulate s) a).error_count =
      a.error_count + failedCount l := by
  induction l generalizing a with
  | nil => simp [latencyTotal, endedSpans, failedCount]
  | cons s t ih =>
    obtain ⟨h1, h2, h3⟩ := accumulate_stats a s
    obtain ⟨g1, g2, g3⟩ := ih (a.accumulate s)
    refine ⟨?_, ?_, ?_⟩
    · rw [List.foldl_cons, g1, h1]
      cases hd : s.duration_ms <;>
        simp [latencyTotal, List.filterMap_cons, hd] <;> ring
    · rw [List.foldl_cons, g2, h2]
      cases he : s.ended_at <;>
        simp [endedSpans, List.filter_cons, he, Span.duration_ms] <;> omega
    · rw [List.foldl_cons, g3, h3]
      cases hs : s.status <;>
        simp [failedCount, List.countP_cons, hs] <;> omega

/-- The single analytics pass splits into a group fold and a totals fold. -/
theorem computePass_split (fmtDay fmtHour : Int → String)
    (query : AnalyticsQuery) (l : List Span) (gs : List (GroupKey × Acc))
    (a : Acc) :
    l.foldl
      (fun (acc : List (GroupKey × Acc) × Acc) s =>
        let totals := acc.2.accumulate s
        let groups :=
          if query.group_by.isEmpty then acc.1
          else updateGroups acc.1 (sortedKeyOf fmtDay fmtHour s query.group_by) s
        (groups, totals)) (gs, a) =
    (l.foldl (fun gs s =>
        if query.group_by.isEmpty then gs
        else updateGroups gs (sortedKeyOf fmtDay fmtHour s query.group_by) s) gs,
     l.foldl (fun x s => x.accumulate s) a) := by
  induction l generalizing gs a with
  | nil => rfl
  | cons s t ih => simp only [List.foldl_cons, ih]

/-- A fold that never changes its accumulator. -/
theorem foldl_id (l : List Span) (gs : List (GroupKey × Acc)) :
    l.foldl (fun gs _ => gs) gs = gs := by
  induction l with
  | nil => rfl
  | cons s t ih => simpa using ih

/-- The avg_latency_ms field produced by the metric fold. -/
theorem metricFold_avg (a : Acc) (req : List AnalyticsMetric)
    (mv : MetricValues) :
    (req.foldl a.metricStep mv).avg_latency_ms =
      if AnalyticsMetric.avgLatencyMs ∈ req then
        (if 0 < a.latency_count then
           some (a.latency_sum_ms / (a.latency_count : Rat))
         else some 0)
      else mv.avg_latency_ms := by
  induction req generalizing mv with
  | nil => simp
  | cons m t ih =>
    cases m <;> simp [List.foldl_cons, Acc.metricStep, ih, List.mem_cons]

/-- The error_count field produced by the metric fold. -/
theorem metricFold_err (a : Acc) (req : List AnalyticsMetric)
    (mv : MetricValues) :
    (req.foldl a.metricStep mv).error_count =
      if AnalyticsMetric.errorCount ∈ req then some a.error_count
      else mv.error_count := by
  induction req generalizing mv with
  | nil => simp
  | cons m t ih =>
    cases m <;> simp [List.foldl_cons, Acc.metricStep, ih, List.mem_cons]

/-- updateGroups updates the looked-up accumulator of its key. -/
theorem updateGroups_lookup_self (gs : List (GroupKey × Acc)) (k : GroupKey)
    (s : Span) :
    (updateGroups gs k s).lookup k =
      some (((gs.lookup k).getD Acc.new).accumulate s) := by
  induction gs with
  | nil => simp [updateGroups, List.lookup]
  | cons p rest ih =>
    obtain ⟨k', a⟩ := p
    by_cases hk : k' = k
    · subst hk
      simp [updateGroups, List.lookup]
    · have h1 : (k' == k) = false := by simp [hk]
      have h2 : (k == k') = false := by
        simp
        exact fun hc => hk hc.symm
      simp [updateGroups, h1, h2, List.lookup, ih]

/-- updateGroups leaves other keys untouched. -/
theorem updateGroups_lookup_ne (gs : List (GroupKey × Acc)) (k k' : GroupKey)
    (s : Span) (h : k' ≠ k) :
    (updateGroups gs k s).lookup k' = gs.lookup k' := by
  induction gs with
  | nil =>
    have : (k' == k) = false := by simp [h]
    simp [updateGroups, List.lookup, this]
  | cons p rest ih =>
    obtain ⟨k0, a⟩ := p
    by_cases hk : k0 = k
    · subst hk
      have : (k' == k0) = false := by simp [h]
      simp [updateGroups, List.lookup, this]
    · have h1 : (k0 == k) = false := by simp [hk]
      cases h2 : (k' == k0) <;>
        simp [updateGroups, h1, List.lookup, h2, ih]

/-- The keys after updateGroups: unchanged, or with the new key appended. -/
theorem updateGroups_keys (gs : List (GroupKey × Acc)) (k : GroupKey)
    (s : Span) :
    (updateGroups gs k s).map Prod.fst =
      if (gs.lookup k).isSome then gs.map Prod.fst
      else gs.map Prod.fst ++ [k] := by
  induction gs with
  | nil => simp [updateGroups, List.lookup]
  | cons p rest ih =>
    obtain ⟨k0, a⟩ := p
    by_cases hk : k0 = k
    · subst hk
      simp [updateGroups, List.lookup]
    · have h1 : (k0 == k) = false := by simp [hk]
      have h2 : (k == k0) = false := by
        simp
        exact fun hc => hk hc.symm
      by_cases hl : (rest.lookup k).isSome <;>
        simp [updateGroups, h1, h2, List.lookup, ih, hl]

/-- A key that lookup misses is not among the mapped keys. -/
theorem lookup_none_not_mem {α β : Type} [BEq α] [LawfulBEq α]
    (l : List (α × β)) (k : α) (h : l.lookup k = none) :
    k ∉ l.map Prod.fst := by
  induction l with
  | nil => simp
  | cons p rest ih =>
    obtain ⟨k', b'⟩ := p
    by_cases hk : k = k'
    · subst hk
      simp [List.lookup] at h
    · have hbk : (k == k') = false := by simp [hk]
      simp only [List.lookup, hbk] at h
      simp [hk, ih h]

/-- updateGroups keeps the keys duplicate-free. -/
theorem updateGroups_nodup (gs : List (GroupKey × Acc)) (k : GroupKey)
    (s : Span) (h : (gs.map Prod.fst).Nodup) :
    ((updateGroups gs k s).map Prod.fst).Nodup := by
  rw [updateGroups_keys]
  cases hl : (gs.lookup k).isSome with
  | true => simpa using h
  | false =>
    have hnone : gs.lookup k = none := by
      cases hg : gs.lookup k
      · rfl
      · rw [hg] at hl; simp at hl
    simp [List.nodup_append, h, lookup_none_not_mem gs k hnone]

/-- With duplicate-free keys, membership coincides with lookup. -/
theorem mem_iff_lookup {α β : Type} [BEq α] [LawfulBEq α]
    (l : List (α × β)) (hnd : (l.map Prod.fst).Nodup) (k : α) (b : β) :
    (k, b) ∈ l ↔ l.lookup k = some b := by
  induction l with
  | nil => simp [List.lookup]
  | cons p rest ih =>
    obtain ⟨k', b'⟩ := p
    simp only [List.map_cons, List.nodup_cons] at hnd
    obtain ⟨hk_not, hnd'⟩ := hnd
    by_cases hk : k = k'
    · subst hk
      have hlook : List.lookup k ((k, b') :: rest) = some b' := by
        simp [List.lookup]
      rw [hlook]
      constructor
      · intro hmem
        rcases List.mem_cons.mp hmem with heq | hmem'
        · rw [(Prod.mk.injEq _ _ _ _).mp heq.symm |>.2]
        · exact absurd (List.mem_map_of_mem Prod.fst hmem') hk_not
      · intro hsome
        have hb : b' = b := by simpa using hsome
        subst hb
        exact List.mem_cons_self _ _
    · have hbk : (k == k') = false := by simp [hk]
      simp [List.lookup, hbk, List.mem_cons, Prod.mk.injEq, hk, ih hnd']

/-- The group fold keeps keys duplicate-free. -/
theorem updFold_nodup (keyOf : Span → GroupKey) (l : List Span)
    (gs : List (GroupKey × Acc)) (h : (gs.map Prod.fst).Nodup) :
    ((l.foldl (fun gs s => updateGroups gs (keyOf s) s) gs).map
      Prod.fst).Nodup := by
  induction l generalizing gs with
  | nil => exact h
  | cons s t ih => exact ih _ (updateGroups_nodup _ _ _ h)

/-- Lookup characterisation of the group fold: the accumulator of a key is
the fold over exactly the spans carrying that key. -/
theorem updFold_lookup (keyOf : Span → GroupKey) (l : List Span)
    (gs : List (GroupKey × Acc)) (k : GroupKey) :
    (l.foldl (fun gs s => updateGroups gs (keyOf s) s) gs).lookup k =
      match gs.lookup k with
      | some a =>
        some ((l.filter (fun s => keyOf s == k)).foldl
          (fun x s => x.accumulate s) a)
      | none =>
        if (l.filter (fun s => keyOf s == k)).isEmpty then none
        else some ((l.filter (fun s => keyOf s == k)).foldl
          (fun x s => x.accumulate s) Acc.new) := by
  induction l generalizing gs with
  | nil =>
    cases hg : gs.lookup k <;> simp [hg]
  | cons s t ih =>
    rw [List.foldl_cons, ih (updateGroups gs (keyOf s) s)]
    by_cases hks : keyOf s = k
    · subst hks
      rw [updateGroups_lookup_self]
      cases hg : gs.lookup (keyOf s) <;>
        simp [List.filter_cons, hg, List.foldl_cons]
    · rw [updateGroups_lookup_ne gs (keyOf s) k s
        (fun hc => hks hc.symm)]
      have hfil : (keyOf s == k) = false := by simp [hks]
      cases hg : gs.lookup k <;> simp [List.filter_cons, hfil, hg]

-- === C5 ===

/-- C5 (counterexample): with one completed span of duration 100 and one
failed span of duration 50, the computed totals avg_latency_ms is 75 - the
failed span contributes - whereas the average over only the completed spans
with an ended_at would be 100. -/
theorem C5_counterexample :
    (computeAnalytics (fun _ => "") (fun _ => "") spansC5
        { metrics := [.avgLatencyMs] }).totals.avg_latency_ms =
      some 75 ∧
    completedOnlyAvg spansC5 = 100 ∧
    (75 : Rat) ≠ 100 := by
  refine ⟨?_, ?_, by norm_num⟩
  · have h1 : (computeAnalytics (fun _ => "") (fun _ => "") spansC5
        { metrics := [.avgLatencyMs] }).totals.avg_latency_ms =
        if 0 < (endedSpans spansC5).length then
          some (latencyTotal spansC5 / ((endedSpans spansC5).length : Rat))
        else some 0 := by
      have hsplit := computePass_split (fun _ => "") (fun _ => "")
        { metrics := [.avgLatencyMs] } spansC5 [] Acc.new
      simp only [computeAnalytics, hsplit]
      obtain ⟨hs, hc, _⟩ := accList_stats spansC5 Acc.new
      rw [Acc.to_metrics, metricFold_avg, if_pos (by decide), hs, hc]
      simp only [Acc.new, zero_add]
    rw [h1]
    have h2 : endedSpans spansC5 = [spanCompletedB, spanFailedC] := by
      simp [endedSpans, spansC5, spanCompletedB, spanFailedC]
    have h3 : latencyTotal spansC5 = 150 := by
      simp [latencyTotal, spansC5, spanCompletedB, spanFailedC,
        Span.duration_ms, List.filterMap_cons]
      norm_num
    rw [h2, h3]
    norm_num
  · have h4 : completedEnded spansC5 = [spanCompletedB] := by
      simp [completedEnded, spansC5, spanCompletedB, spanFailedC]
    rw [completedOnlyAvg, h4]
    simp [Span.duration_ms, spanCompletedB, List.filterMap_cons]

/-- C5 amended: for every span set and analytics query requesting
avg_latency_ms and error_count, the totals and every group report
avg_latency_ms equal to the duration sum over the count of exactly the
spans that have an ended_at - terminal spans, completed or failed alike
(0 when there are none) - and error_count equal to the number of failed
spans. -/
theorem C5_avg_latency (fmtDay fmtHour : Int → String) (spans : List Span)
    (query : AnalyticsQuery)
    (havg : AnalyticsMetric.avgLatencyMs ∈ query.metrics)
    (herr : AnalyticsMetric.errorCount ∈ query.metrics) :
    (computeAnalytics fmtDay fmtHour spans query).totals.avg_latency_ms =
      some (avgOverEnded spans) ∧
    (computeAnalytics fmtDay fmtHour spans query).totals.error_count =
      some (failedCount spans) ∧
    ∀ g ∈ (computeAnalytics fmtDay fmtHour spans query).groups,
      g.metrics.avg_latency_ms =
        some (avgOverEnded (spans.filter (fun s =>
          sortedKeyOf fmtDay fmtHour s query.group_by == g.key))) ∧
      g.metrics.error_count =
        some (failedCount (spans.filter (fun s =>
          sortedKeyOf fmtDay fmtHour s query.group_by == g.key))) := by
  have hsplit := computePass_split fmtDay fmtHour query spans [] Acc.new
  have havg_of : ∀ (l : List Span),
      ((l.foldl (fun x s => x.accumulate s) Acc.new).to_metrics
        query.metrics).avg_latency_ms = some (avgOverEnded l) := by
    intro l
    obtain ⟨hs, hc, _⟩ := accList_stats l Acc.new
    rw [Acc.to_metrics, metricFold_avg, if_pos havg, hs, hc]
    simp only [Acc.new, zero_add]
    rw [avgOverEnded, apply_ite some]
  have herr_of : ∀ (l : List Span),
      ((l.foldl (fun x s => x.accumulate s) Acc.new).to_metrics
        query.metrics).error_count = some (failedCount l) := by
    intro l
    obtain ⟨_, _, he⟩ := accList_stats l Acc.new
    rw [Acc.to_metrics, metricFold_err, if_pos herr, he]
    simp [Acc.new]
  refine ⟨?_, ?_, ?_⟩
  · simp only [computeAnalytics, hsplit]
    exact havg_of spans
  · simp only [computeAnalytics, hsplit]
    exact herr_of spans
  · intro g hg
    simp only [computeAnalytics, hsplit, List.mem_map] at hg
    obtain ⟨p, hp, hgp⟩ := hg
    cases hempty : query.group_by.isEmpty with
    | true =>
      rw [hempty] at hp
      simp only [if_true] at hp
      rw [foldl_id] at hp
      simp at hp
    | false =>
      rw [hempty] at hp
      simp only [Bool.false_eq_true, if_false] at hp
      have hnd := updFold_nodup
        (fun s => sortedKeyOf fmtDay fmtHour s query.group_by) spans []
        (by simp)
      have hlook := (mem_iff_lookup _ hnd p.1 p.2).mp (by
        rw [show (p.1, p.2) = p from rfl]
        exact hp)
      rw [updFold_lookup] at hlook
      simp only [List.lookup] at hlook
      by_cases hemp : (spans.filter (fun s =>
          sortedKeyOf fmtDay fmtHour s query.group_by == p.1)).isEmpty
      · rw [if_pos hemp] at hlook
        exact absurd hlook (by simp)
      · rw [if_neg hemp] at hlook
        have hacc : p.2 = (spans.filter (fun s =>
            sortedKeyOf fmtDay fmtHour s query.group_by == p.1)).foldl
            (fun x s => x.accumulate s) Acc.new := by
          have := hlook.symm
          simpa using this
        rw [← hgp]
        simp only []
        constructor
        · rw [hacc]
          exact havg_of _
        · rw [hacc]
          exact herr_of _

/-- Witness for C5 at the concrete span list and query. -/
theorem C5_avg_latency_witness :
    AnalyticsMetric.avgLatencyMs ∈ queryC5.metrics ∧
    AnalyticsMetric.errorCount ∈ queryC5.metrics ∧
    ((computeAnalytics (fun _ => "") (fun _ => "") spansC5
        queryC5).totals.avg_latency_ms = some (avgOverEnded spansC5) ∧
     (computeAnalytics (fun _ => "") (fun _ => "") spansC5
        queryC5).totals.error_count = some (failedCount spansC5) ∧
     ∀ g ∈ (computeAnalytics (fun _ => "") (fun _ => "") spansC5
        queryC5).groups,
       g.metrics.avg_latency_ms =
         some (avgOverEnded (spansC5.filter (fun s =>
           sortedKeyOf (fun _ => "") (fun _ => "") s queryC5.group_by ==
             g.key))) ∧
       g.metrics.error_count =
         some (failedCount (spansC5.filter (fun s =>
           sortedKeyOf (fun _ => "") (fun _ => "") s queryC5.group_by ==
             g.key)))) :=
  ⟨by decide, by decide,
   C5_avg_latency (fun _ => "") (fun _ => "") spansC5 queryC5 (by decide)
     (by decide)⟩

end Traceway
